import Mathlib

/-!
# Spreadsheet / catalog-service synchroniser (`function.go`)

A shallow embedding of the reconciliation code of `function.go`:

* `getSKU`, `getPriceScale`, `createProposal` (the join resolver) are pure
  functions over the rows that were read; indexing a row out of range is a
  run-time panic, modelled by `Run.panic`.
* `insertRFP`, `updateIncommingRFPs`, `sendProposal`, `markProposalSent`,
  `sendOutgoingProposals` and the HTTP entry points talk to the Sheets service
  and to the catalog service.  Both are given by an environment `Env` of
  call results; every write the code issues is recorded, in order, in a trace
  of `Effect`s.  `log.Fatalf` ends the process (`Run.exit`).
* Go's multiple return values `(v, err)` are pairs whose last component is an
  `Option GoErr` (`none` is a `nil` error).
-/

namespace Sheets

/-! ## Values, errors, outcomes -/

/-- A cell value as the Sheets client hands it over (`interface{}`): either a
Go string, or a value of another dynamic type, kept as the text that
`fmt.Sprintf("%s", v)` prints for it. -/
inductive Cell where
  | str (s : String)
  | other (printed : String)
  deriving DecidableEq, Repr

/-- The text `fmt.Sprintf("%s", c)` yields. -/
def Cell.sprint : Cell → String
  | .str s => s
  | .other p => p

/-- The Go comparison `c == s` of an `interface{}` with a string: true only
for a string value with the same content. -/
def Cell.eqStr : Cell → String → Bool
  | .str t, s => decide (t = s)
  | .other _, _ => false

/-- One row of a range: `[]interface{}`. -/
abbrev Row := List Cell

/-- A Go `error` value.  `errorf` is an error made by `fmt.Errorf` (its
message), `numError` is a `*strconv.NumError` (function, offending text,
and whether it is `ErrRange` rather than `ErrSyntax`), `io` is any error of
a network or Sheets call. -/
inductive GoErr where
  | errorf (msg : String)
  | numError (fn : String) (num : String) (isRange : Bool)
  | io (msg : String)
  deriving DecidableEq, Repr

/-- The message `err.Error()`.  For a `NumError` the quoting of the offending
text is the plain one (no escape sequences). -/
def GoErr.Error : GoErr → String
  | .errorf msg => msg
  | .numError fn num isRange =>
      "strconv." ++ fn ++ ": parsing \"" ++ num ++ "\": " ++
        (if isRange then "value out of range" else "invalid syntax")
  | .io msg => msg

/-- How a Go call ends: it returns, it panics (index out of range, nil
dereference), or the process exits (`log.Fatalf`). -/
inductive Run (α : Type) where
  | ret (a : α)
  | panic
  | exit
  deriving DecidableEq, Repr

/-- Sequencing of pure calls. -/
def Run.bind {α β : Type} (x : Run α) (f : α → Run β) : Run β :=
  match x with
  | .ret a => f a
  | .panic => .panic
  | .exit => .exit

instance : Monad Run where
  pure := Run.ret
  bind := Run.bind

/-- The Go index expression `row[i]`: a panic when `i` is out of range. -/
def index {α : Type} (row : List α) (i : Nat) : Run α :=
  match row[i]? with
  | some c => .ret c
  | none => .panic

/-! ## `strconv` -/

/-- Largest value of Go's `int` on a 64-bit platform. -/
def maxInt : Int := 2 ^ 63 - 1

/-- Smallest value of Go's `int` on a 64-bit platform. -/
def minInt : Int := -(2 ^ 63)

/-- Wrap-around of `int` arithmetic to 64 bits (two's complement). -/
def wrapInt (x : Int) : Int := (x + 2 ^ 63) % 2 ^ 64 - 2 ^ 63

/-- Value of a run of decimal digits, `none` when a character is not one. -/
def digitsVal : List Char → Nat → Option Nat
  | [], acc => some acc
  | c :: cs, acc =>
      if c.isDigit then digitsVal cs (acc * 10 + (c.toNat - 48)) else none

/-- The digits of `strconv.Atoi`, after the optional sign: one or more decimal
digits with a value in the range of `int`; `s` is the whole text, kept for
the error. -/
def atoiDigits (s : String) (neg : Bool) (ds : List Char) : Int × Option GoErr :=
  match ds with
  | [] => (0, some (.numError "Atoi" s false))
  | _ :: _ =>
    match digitsVal ds 0 with
    | none => (0, some (.numError "Atoi" s false))
    | some n =>
      if neg then
        if (n : Int) > 2 ^ 63 then (minInt, some (.numError "Atoi" s true))
        else (-(n : Int), none)
      else
        if (n : Int) > maxInt then (maxInt, some (.numError "Atoi" s true))
        else ((n : Int), none)

/-- The function `strconv.Atoi`: an optional sign, then one or more decimal
digits, within the range of `int`; otherwise a `NumError` (syntax or range). -/
def Atoi (s : String) : Int × Option GoErr :=
  match s.data with
  | [] => (0, some (.numError "Atoi" s false))
  | c :: cs =>
    if c = '-' then atoiDigits s true cs
    else if c = '+' then atoiDigits s false cs
    else atoiDigits s false (c :: cs)

/-- The function `strconv.Itoa`. -/
def Itoa (n : Int) : String := toString n

/-- The `float32` operations the code uses, for a carrier `F` of the values:
the zero value, `strconv.ParseFloat(s, 32)` followed by `float32(..)`, and
`fmt.Sprintf("%f", x)`. -/
structure FloatOps (F : Type) where
  zero : F
  ParseFloat32 : String → F × Option GoErr
  Sprintf_f : F → String

/-- Helper of `stringsSplitComma`: `cur` holds the current piece, reversed. -/
def splitCommaAux : List Char → List Char → List String
  | [], cur => [String.mk cur.reverse]
  | c :: cs, cur =>
      if c = ',' then String.mk cur.reverse :: splitCommaAux cs []
      else splitCommaAux cs (c :: cur)

/-- The call `strings.Split(s, ",")`: the pieces between commas, empty pieces
included; the empty string gives one empty piece. -/
def stringsSplitComma (s : String) : List String := splitCommaAux s.data []

/-! ## Data types of `function.go` -/

/-- The struct `orderItem`. -/
structure orderItem (F : Type) where
  OrderItemID : Int
  SKUBuyer : String
  Quantity : F
  Unit : String
  deriving DecidableEq, Repr

/-- The struct `rfpResponse`. -/
structure rfpResponse (F : Type) where
  RequestForProposalID : String
  SupplierID : String
  Items : List (orderItem F)
  LatestDeliveryDate : String
  deriving DecidableEq, Repr

/-- The struct `baselineRFP`. -/
structure baselineRFP where
  ID : String
  BuyerProductId : String
  SupplierProductId : String
  LatestDeliveryDate : String
  deriving DecidableEq, Repr

/-- The struct `baselineSku`. -/
structure baselineSku where
  ID : String
  ProductName : String
  BuyerProductId : String
  SupplierProductId : String
  deriving DecidableEq, Repr

/-- The struct `baselinePriceScale`. -/
structure baselinePriceScale (F : Type) where
  Sku : baselineSku
  QuantityFrom : Int
  QuantityTo : Int
  Price : F
  Unit : String
  Currency : String
  deriving DecidableEq, Repr

/-- The struct `baselineProposal`. -/
structure baselineProposal (F : Type) where
  ProposalID : String
  BuyerID : String
  ReferencedRfpID : String
  PriceScales : List (baselinePriceScale F)
  deriving DecidableEq, Repr

/-- The struct `proposalResponse`. -/
structure proposalResponse where
  ProposalID : String
  deriving DecidableEq, Repr

/-- The zero value of `baselineSku`. -/
def zeroSku : baselineSku := ⟨"", "", "", ""⟩

/-- The zero value of `baselinePriceScale`. -/
def zeroPriceScale {F : Type} (fl : FloatOps F) : baselinePriceScale F :=
  ⟨zeroSku, 0, 0, fl.zero, "", ""⟩

/-! ## The join resolver -/

/-- The function `getSKU`: top-to-bottom scan of the SKU rows for the first one
whose first cell equals `skuID`. -/
def getSKU (skuID : String) (skus : List Row) (buyerId : String) :
    Run (baselineSku × Option GoErr) :=
  match skus with
  | [] => .ret (zeroSku, some (.errorf ("Could not find sku with id " ++ skuID)))
  | row :: rest => do
    let c0 ← index row 0
    if c0.eqStr skuID then do
      let c1 ← index row 1
      return (⟨c0.sprint, c1.sprint, buyerId, c0.sprint⟩, none)
    else getSKU skuID rest buyerId

/-- The body of the loop of `getPriceScale` for a row whose first cell matched:
the SKU lookup, then the three numeric cells, then the struct. -/
def priceScaleOfRow {F : Type} (fl : FloatOps F) (row : Row) (skus : List Row) :
    Run (baselinePriceScale F × Option GoErr) := do
  let c1 ← index row 1
  let c7 ← index row 7
  let (sku, err) ← getSKU c1.sprint skus c7.sprint
  match err with
  | some e => return (zeroPriceScale fl, some e)
  | none =>
    let c2 ← index row 2
    let (quantityFrom, err) := Atoi c2.sprint
    match err with
    | some e => return (zeroPriceScale fl, some e)
    | none =>
      let c3 ← index row 3
      let (quantityTo, err) := Atoi c3.sprint
      match err with
      | some e => return (zeroPriceScale fl, some e)
      | none =>
        let c5 ← index row 5
        let (price, err) := fl.ParseFloat32 c5.sprint
        match err with
        | some e => return (zeroPriceScale fl, some e)
        | none =>
          let c4 ← index row 4
          let c6 ← index row 6
          return (⟨sku, quantityFrom, quantityTo, price, c4.sprint, c6.sprint⟩, none)

/-- The function `getPriceScale`: top-to-bottom scan of the tier rows for the
first one whose first cell equals `priceScaleID`. -/
def getPriceScale {F : Type} (fl : FloatOps F) (priceScaleID : String)
    (priceScales : List Row) (skus : List Row) :
    Run (baselinePriceScale F × Option GoErr) :=
  match priceScales with
  | [] => .ret (zeroPriceScale fl,
      some (.errorf ("Could not find price scale with id " ++ priceScaleID)))
  | row :: rest => do
    let c0 ← index row 0
    if c0.eqStr priceScaleID then priceScaleOfRow fl row skus
    else getPriceScale fl priceScaleID rest skus

/-- The loop of `createProposal` over the tier ids: `done` holds the entries
of `proposalPriceScales` filled so far; the first error ends the function
with a `nil` proposal. -/
def createProposalLoop {F : Type} (fl : FloatOps F) (priceScales : List Row)
    (skus : List Row) :
    List String → List (baselinePriceScale F) →
      Run (List (baselinePriceScale F) × Option GoErr)
  | [], done => .ret (done, none)
  | k :: ks, done => do
    let (p, err) ← getPriceScale fl k priceScales skus
    match err with
    | some e => return (done ++ [p], some e)
    | none => createProposalLoop fl priceScales skus ks (done ++ [p])

/-- The function `createProposal`: the pair `(b, err)`, `b` being `nil`
(`none`) at every error return. -/
def createProposal {F : Type} (fl : FloatOps F) (proposal : Row)
    (priceScales : List Row) (skus : List Row) :
    Run (Option (baselineProposal F) × Option GoErr) := do
  let c3 ← index proposal 3
  let scaleIds := stringsSplitComma c3.sprint
  let (proposalPriceScales, err) ← createProposalLoop fl priceScales skus scaleIds []
  match err with
  | some e => return (none, some e)
  | none =>
    let c0 ← index proposal 0
    let c1 ← index proposal 1
    let c2 ← index proposal 2
    return (some ⟨c0.sprint, c1.sprint, c2.sprint, proposalPriceScales⟩, none)

/-! ## The two services -/

/-- A range in A1 notation, as the code passes it to the Sheets client:
`sheet!<col><row>` for a single cell (`last = none`), `sheet!<col><row>:<col>`
for an open-ended block (`last = some (c, none)`), and
`sheet!<col><row>:<col><row>` for a closed block.  Columns are counted from
`A = 0`, rows from 1 as in the notation. -/
structure A1Range where
  sheet : String
  col : Nat
  row : Int
  last : Option (Nat × Option Int)
  deriving DecidableEq, Repr

/-- The status line of an HTTP response: `resp.StatusCode` and `resp.Status`. -/
structure Response where
  StatusCode : Int
  Status : String
  deriving DecidableEq, Repr

/-- The struct `updates`. -/
structure updates where
  OrderItems : Int
  Rfp : Int
  SentProposals : Int
  deriving DecidableEq, Repr

/-- Modelled from the spec: the struct `APIResponse` is declared outside the
given sources; the entry points build it from a boolean and a message, the
`ok` and `error` of the structured result. -/
structure APIResponse where
  ok : Bool
  error : String
  deriving DecidableEq, Repr

/-- The struct `updateResponse`. -/
structure updateResponse where
  api : APIResponse
  Updates : updates
  deriving DecidableEq, Repr

/-- A request that changes something outside the process, in the order issued:
`Values.Append`, `Values.Update`, `POST /Proposals`, and the JSON body
rendered to the caller. -/
inductive Effect (F : Type) where
  | append (range : A1Range) (row : Row)
  | update (range : A1Range) (values : List Row)
  | post (proposal : baselineProposal F)
  | render (resp : updateResponse)
  deriving DecidableEq, Repr

/-- The results of the calls to the outside world during one invocation:
the Sheets client of `getSheetsService`, `Values.Get/Append/Update`, and the
catalog service (`GET /RequestForProposals`, `GET /RequestForProposals/{id}`,
`GET /Proposals`, each with the decoding of its body, and
`POST /Proposals`).  The result of a call depends on its arguments only. -/
structure Env (F : Type) where
  getSheetsService : Option GoErr
  valuesGet : A1Range → Except GoErr (List Row)
  valuesAppend : A1Range → Row → Option GoErr
  valuesUpdate : A1Range → List Row → Option GoErr
  getRFPs : Except GoErr (List baselineRFP)
  getRFP : String → Except GoErr (rfpResponse F)
  getProposals : Except GoErr (List proposalResponse)
  postProposals : baselineProposal F → Except GoErr Response

/-- The range `RFPS!A2`, read for the local count and used as append anchor. -/
def rfpsRange : A1Range := ⟨"RFPS", 0, 2, none⟩

/-- The range `Order_Items!A2`, the append anchor of order items. -/
def orderItemsAnchor : A1Range := ⟨"Order_Items", 0, 2, none⟩

/-- The range `Order_Items!A2:C`. -/
def orderItemsRange : A1Range := ⟨"Order_Items", 0, 2, some (2, none)⟩

/-- The range `SKU!A2:Z`. -/
def skuRange : A1Range := ⟨"SKU", 0, 2, some (25, none)⟩

/-- The range `Proposal_Tiers!A2:Z`. -/
def tiersRange : A1Range := ⟨"Proposal_Tiers", 0, 2, some (25, none)⟩

/-- The range `Proposals!A2:Z`. -/
def proposalsRange : A1Range := ⟨"Proposals", 0, 2, some (25, none)⟩

/-- A run of effectful code: the effects issued, then how the call ended. -/
def M (F : Type) (α : Type) : Type := List (Effect F) × Run α

/-- Sequencing of effectful calls: the effects of the first, then, when it
returned, those of the second. -/
def M.bind {F α β : Type} (x : M F α) (f : α → M F β) : M F β :=
  match x.2 with
  | .ret a => (x.1 ++ (f a).1, (f a).2)
  | .panic => (x.1, .panic)
  | .exit => (x.1, .exit)

instance (F : Type) : Monad (M F) where
  pure := fun a => ([], Run.ret a)
  bind := M.bind

/-- Record one effect. -/
def emit {F : Type} (e : Effect F) : M F Unit := ([e], .ret ())

/-- A pure call inside effectful code. -/
def liftRun {F α : Type} (r : Run α) : M F α := ([], r)

/-- The call `log.Fatalf`: the message is logged and the process exits with
status 1; nothing after it runs. -/
def logFatalf {F : Type} : M F Unit := ([], .exit)

/-- A run-time panic inside effectful code. -/
def goPanic {F α : Type} : M F α := ([], .panic)

/-! ## Inbound reconciler -/

/-- The function `getOrderItemsCount`, reading `Order_Items!A2:C`. -/
def getOrderItemsCount {F : Type} (env : Env F) : Int × Option GoErr :=
  match env.valuesGet orderItemsRange with
  | .error e => (0, some e)
  | .ok values => (values.length, none)

/-- The function `appendOrderItem`, appending at `Order_Items!A2`. -/
def appendOrderItem {F : Type} (fl : FloatOps F) (env : Env F) (rfpId : String)
    (o : orderItem F) : M F (Option GoErr) := do
  let row : Row := [.str rfpId, .str (Itoa o.OrderItemID), .str o.SKUBuyer,
    .str (fl.Sprintf_f o.Quantity), .str o.Unit]
  emit (.append orderItemsAnchor row)
  match env.valuesAppend orderItemsAnchor row with
  | some e => do
    logFatalf
    return some e
  | none => return none

/-- The function `appendRfp`, appending at `RFPS!A2`. -/
def appendRfp {F : Type} (env : Env F) (rfp : rfpResponse F) : M F (Option GoErr) := do
  let row : Row := [.str rfp.RequestForProposalID, .str "Buyer",
    .str (Itoa rfp.Items.length), .str rfp.LatestDeliveryDate]
  emit (.append rfpsRange row)
  match env.valuesAppend rfpsRange row with
  | some e => do
    logFatalf
    return some e
  | none => return none

/-- The loop of `insertRFP` over `rfp.Items`; the result is the error that
ends `insertRFP` early, if any. -/
def insertItems {F : Type} (fl : FloatOps F) (env : Env F) (rfpId : String) :
    List (orderItem F) → M F (Option GoErr)
  | [] => return none
  | o :: rest => do
    let err ← appendOrderItem fl env rfpId o
    match err with
    | some e => return some e
    | none => insertItems fl env rfpId rest

/-- The function `insertRFP`. -/
def insertRFP {F : Type} (fl : FloatOps F) (env : Env F) (bRFP : baselineRFP) :
    M F (Int × Option GoErr) :=
  match env.getRFP bRFP.ID with
  | .error e => return (0, some e)
  | .ok rfp => do
    let err ← insertItems fl env bRFP.ID rfp.Items
    match err with
    | some e => return (0, some e)
    | none =>
      let err ← appendRfp env rfp
      match err with
      | some e => return (0, some e)
      | none => return (rfp.Items.length, none)

/-- The loop of `updateIncommingRFPs` over `newRfps`, with the running value
of `orderItemsIncrease`; `increase` is `totalRfpsCount - savedRfpsCount`. -/
def insertNewRfps {F : Type} (fl : FloatOps F) (env : Env F) (increase : Int) :
    List baselineRFP → Int → M F (Int × Int × Option GoErr)
  | [], orderItemsIncrease => return (orderItemsIncrease, increase, none)
  | rfp :: rest, orderItemsIncrease => do
    let (newOrderCount, err) ← insertRFP fl env rfp
    match err with
    | some e => return (0, 0, some e)
    | none => insertNewRfps fl env increase rest (orderItemsIncrease + newOrderCount)

/-- The function `updateIncommingRFPs`; the local count is the number of rows
of the read of `RFPS!A2`. -/
def updateIncommingRFPs {F : Type} (fl : FloatOps F) (env : Env F) :
    M F (Int × Int × Option GoErr) :=
  match env.valuesGet rfpsRange with
  | .error e => return (0, 0, some e)
  | .ok values =>
    match env.getRFPs with
    | .error e => return (0, 0, some e)
    | .ok rfps =>
      let savedRfpsCount : Int := values.length
      let totalRfpsCount : Int := rfps.length
      if totalRfpsCount > savedRfpsCount then
        insertNewRfps fl env (totalRfpsCount - savedRfpsCount)
          (rfps.drop values.length) 0
      else return (0, 0, none)

/-! ## Outbound reconciler -/

/-- The function `sendProposal`.  When `http.Post` itself fails the response is
`nil` and the deferred `resp.Body.Close()` dereferences it: a panic. -/
def sendProposal {F : Type} (env : Env F) (proposal : baselineProposal F) :
    M F (Option GoErr) := do
  emit (.post proposal)
  match env.postProposals proposal with
  | .error _ => goPanic
  | .ok resp =>
    if resp.StatusCode ≠ 200 then
      return some (.errorf ("Posting proposal returned status code " ++ resp.Status))
    else return none

/-- The range `Proposals!E<row>:E<row>` that `markProposalSent` formats. -/
def sentFlagRange (proposalRow : Int) : A1Range :=
  ⟨"Proposals", 4, proposalRow, some (4, some proposalRow)⟩

/-- The function `markProposalSent`; `proposalIDInt + 1` is `int` arithmetic. -/
def markProposalSent {F : Type} (env : Env F) (proposalID : String) :
    M F (Option GoErr) := do
  let (proposalIDInt, err) := Atoi proposalID
  match err with
  | some e => return some e
  | none =>
    let proposalRow := wrapInt (proposalIDInt + 1)
    let updateRange := sentFlagRange proposalRow
    emit (.update updateRange [[.str "Yes"]])
    match env.valuesUpdate updateRange [[.str "Yes"]] with
    | some e => do
      logFatalf
      return some e
    | none => return none

/-- The loop of `sendOutgoingProposals` over `newProposals`, with the running
value of `sentProposals`.  The value of `sendProposal` is dropped by the
code, and the test that follows it looks again at the error of
`createProposal`, which is `nil` there. -/
def sendNewProposals {F : Type} (fl : FloatOps F) (env : Env F)
    (priceScales : List Row) (skus : List Row) :
    List Row → Int → M F (Int × Option GoErr)
  | [], sentProposals => return (sentProposals, none)
  | row :: rest, sentProposals => do
    let c4 ← liftRun (index row 4)
    if !(c4.eqStr "No") then sendNewProposals fl env priceScales skus rest sentProposals
    else
      let (proposal, err) ← liftRun (createProposal fl row priceScales skus)
      match err with
      | some e => return (sentProposals, some e)
      | none =>
        match proposal with
        | none => goPanic
        | some b =>
          let _ ← sendProposal env b
          match err with
          | some e => return (sentProposals, some e)
          | none =>
            let err ← markProposalSent env b.ProposalID
            match err with
            | some e => return (sentProposals, some e)
            | none => sendNewProposals fl env priceScales skus rest (sentProposals + 1)

/-- The function `sendOutgoingProposals`: reads of `SKU!A2:Z`,
`Proposal_Tiers!A2:Z`, `Proposals!A2:Z`, then `GET /Proposals`. -/
def sendOutgoingProposals {F : Type} (fl : FloatOps F) (env : Env F) :
    M F (Int × Option GoErr) :=
  match env.valuesGet skuRange with
  | .error e => return (0, some e)
  | .ok skus =>
    match env.valuesGet tiersRange with
    | .error e => return (0, some e)
    | .ok priceScales =>
      match env.valuesGet proposalsRange with
      | .error e => return (0, some e)
      | .ok proposalRows =>
        match env.getProposals with
        | .error e => return (0, some e)
        | .ok proposals =>
          let savedProposalsCount : Int := proposalRows.length
          let sentProposalsCount : Int := proposals.length
          if savedProposalsCount > sentProposalsCount then
            sendNewProposals fl env priceScales skus
              (proposalRows.drop proposals.length) 0
          else return (0, none)

/-! ## Entry points -/

/-- The call `getSheetsService()` of an entry point and its error branch. -/
def requireSheetsService {F : Type} (env : Env F) : M F Unit :=
  match env.getSheetsService with
  | some _ => logFatalf
  | none => return ()

/-- The failure body every entry point renders after its `log.Fatalf`. -/
def failureResponse (err : GoErr) : updateResponse :=
  ⟨⟨false, err.Error⟩, ⟨0, 0, 0⟩⟩

/-- The HTTP function `UpdateIncoming`. -/
def UpdateIncoming {F : Type} (fl : FloatOps F) (env : Env F) : M F Unit := do
  requireSheetsService env
  let (orderItemsIncrease, rfpsIncrease, err) ← updateIncommingRFPs fl env
  match err with
  | some e => do
    logFatalf
    emit (.render (failureResponse e))
  | none => emit (.render ⟨⟨true, ""⟩, ⟨orderItemsIncrease, rfpsIncrease, 0⟩⟩)

/-- The HTTP function `SendProposals`. -/
def SendProposals {F : Type} (fl : FloatOps F) (env : Env F) : M F Unit := do
  requireSheetsService env
  let (sentProposals, err) ← sendOutgoingProposals fl env
  match err with
  | some e => do
    logFatalf
    emit (.render (failureResponse e))
  | none => emit (.render ⟨⟨true, ""⟩, ⟨0, 0, sentProposals⟩⟩)

/-- The HTTP function `UpdateAll`. -/
def UpdateAll {F : Type} (fl : FloatOps F) (env : Env F) : M F Unit := do
  requireSheetsService env
  let (orderItemsIncrease, rfpsIncrease, err) ← updateIncommingRFPs fl env
  match err with
  | some e => do
    logFatalf
    emit (.render (failureResponse e))
  | none =>
    let (sentProposals, err) ← sendOutgoingProposals fl env
    match err with
    | some e => do
      logFatalf
      emit (.render (failureResponse e))
    | none =>
      emit (.render ⟨⟨true, ""⟩, ⟨orderItemsIncrease, rfpsIncrease, sentProposals⟩⟩)

/-! ## A spreadsheet behind the Sheets client -/

/-- The cells of a spreadsheet: for each sheet name its rows from row 1 down,
each row its cell texts from column A on; the empty text is an empty cell. -/
abbrev Store := String → List (List String)

/-- Drop the elements satisfying `p` at the end of a list. -/
def dropTrailing {α : Type} (p : α → Bool) (l : List α) : List α :=
  (l.reverse.dropWhile p).reverse

/-- The rows `Values.Get` returns for a range: the cells of the range, as
strings, without the empty cells that end a row and without the empty rows
that end the range.  A range without a colon, such as `RFPS!A2`, is the
single cell it names; the rows from row 2 down are an open-ended range such
as `Order_Items!A2:C` or `Proposals!A2:Z`. -/
def Store.values (st : Store) (r : A1Range) : List Row :=
  let grid := (st r.sheet).drop (r.row - 1).toNat
  let lastCol := match r.last with
    | none => r.col
    | some (c, _) => c
  let rows := match r.last with
    | none => grid.take 1
    | some (_, none) => grid
    | some (_, some lastRow) => grid.take (lastRow - r.row + 1).toNat
  let cut := rows.map fun cells =>
    (dropTrailing (fun t => decide (t = "")) ((cells.drop r.col).take (lastCol + 1 - r.col))).map
      Cell.str
  dropTrailing (fun row => row.isEmpty) cut

/-- The environment of an invocation in which every call succeeds: the reads
come from the spreadsheet `st`, the catalog service lists `rfps`, gives
`detail id` for an RFP id, knows `proposals`, and gives the status line
`answer` to every submission. -/
def Store.env {F : Type} (st : Store) (rfps : List baselineRFP)
    (detail : String → rfpResponse F) (proposals : List proposalResponse)
    (answer : Response) : Env F :=
  ⟨none, fun r => .ok (st.values r), fun _ _ => none, fun _ _ => none, .ok rfps,
    fun id => .ok (detail id), .ok proposals, fun _ => .ok answer⟩

/-- The number of data rows of the `RFPS` sheet: the rows under the header
row that hold an RFP id in column A. -/
def Store.rfpRows (st : Store) : List (List String) :=
  ((st "RFPS").drop 1).filter fun cells => decide (cells.head? ≠ none ∧ cells.head? ≠ some "")

/-! ## Words of the specification, for the statements -/

/-- Whether the first column of a row equals `id`. -/
def firstColIs (id : String) (row : Row) : Bool :=
  match row with
  | c :: _ => c.eqStr id
  | [] => false

/-- The text of cell `i` of a row (the empty text when the row is shorter). -/
def cellText (row : Row) (i : Nat) : String :=
  match row[i]? with
  | some c => c.sprint
  | none => ""

/-- The SKU built from a SKU row: id and product name from the row, buyer
product id from the tier row referring to it. -/
def skuOfRow (srow : Row) (buyerId : String) : baselineSku :=
  ⟨cellText srow 0, cellText srow 1, buyerId, cellText srow 0⟩

/-- The price tier built from a tier row and the SKU row it refers to. -/
def tierOfRows {F : Type} (fl : FloatOps F) (trow srow : Row) : baselinePriceScale F :=
  ⟨skuOfRow srow (cellText trow 7), (Atoi (cellText trow 2)).1, (Atoi (cellText trow 3)).1,
    (fl.ParseFloat32 (cellText trow 5)).1, cellText trow 4, cellText trow 6⟩

/-- The numeric cells of a tier row are well-formed: quantity-from and
quantity-to are accepted by `strconv.Atoi`, the price by `ParseFloat`. -/
def NumericOk {F : Type} (fl : FloatOps F) (trow : Row) : Prop :=
  (Atoi (cellText trow 2)).2 = none ∧ (Atoi (cellText trow 3)).2 = none ∧
    (fl.ParseFloat32 (cellText trow 5)).2 = none

/-- The row widths the code relies on: every tier row has at least 8 cells and
every SKU row at least 2. -/
def WideRows (tiers skus : List Row) : Prop :=
  (∀ row ∈ tiers, 8 ≤ row.length) ∧ (∀ row ∈ skus, 2 ≤ row.length)

/-- The numeric stage for a tier row whose SKU row was found: the first
malformed numeric cell gives its error, otherwise the tier is built. -/
def tierOrParseError {F : Type} (fl : FloatOps F) (trow srow : Row) :
    baselinePriceScale F × Option GoErr :=
  match (Atoi (cellText trow 2)).2 with
  | some e => (zeroPriceScale fl, some e)
  | none =>
    match (Atoi (cellText trow 3)).2 with
    | some e => (zeroPriceScale fl, some e)
    | none =>
      match (fl.ParseFloat32 (cellText trow 5)).2 with
      | some e => (zeroPriceScale fl, some e)
      | none => (tierOfRows fl trow srow, none)

/-- The lookup of one tier id in the words of the specification: the first
tier row whose first column is the id, then the first SKU row whose first
column is that row's SKU reference, then the numeric cells. -/
def resolveTier {F : Type} (fl : FloatOps F) (tiers skus : List Row) (id : String) :
    baselinePriceScale F × Option GoErr :=
  match tiers.find? (firstColIs id) with
  | none => (zeroPriceScale fl, some (.errorf ("Could not find price scale with id " ++ id)))
  | some trow =>
    match skus.find? (firstColIs (cellText trow 1)) with
    | none =>
      (zeroPriceScale fl, some (.errorf ("Could not find sku with id " ++ cellText trow 1)))
    | some srow => tierOrParseError fl trow srow

/-! ## Sample data for the worked examples -/

/-- A stand-in for `float32` in the worked examples: a value is kept as its
decimal text; digits with dots are accepted. -/
def sampleFloat : FloatOps String :=
  ⟨"0",
   fun s =>
     if s.data.all (fun c => c.isDigit || decide (c = '.')) && !s.data.isEmpty then (s, none)
     else ("0", some (.numError "ParseFloat" s false)),
   fun x => x⟩

/-- One tier `T1` for SKU `S1`. -/
def sampleTiers : List Row :=
  [[.str "T1", .str "S1", .str "1", .str "10", .str "kg", .str "1.5", .str "EUR", .str "buyer-7"]]

/-- One SKU `S1` named `Widget`. -/
def sampleSkus : List Row := [[.str "S1", .str "Widget"]]

/-- A proposal row with the given id, tier list and sent flag. -/
def sampleProposalRow (id tierIds sent : String) : Row :=
  [.str id, .str "Buyer", .str "rfp-1", .str tierIds, .str sent]

/-- The tier that `T1` resolves to in the sample ranges. -/
def sampleTier : baselinePriceScale String :=
  ⟨⟨"S1", "Widget", "buyer-7", "S1"⟩, 1, 10, "1.5", "kg", "EUR"⟩

/-! ## Words of the specification for the outbound reconciler -/

/-- Whether a local proposal row is a candidate: its sent flag, the fifth
cell, equals `"No"`. -/
def isCandidate (row : Row) : Bool :=
  match row[4]? with
  | some c => c.eqStr "No"
  | none => false

/-- What is issued for one submitted row: the POST of its payload, then the
write of `"Yes"` at the row computed from the payload's id. -/
def submissionOf {F : Type} (fl : FloatOps F) (tiers skus : List Row) (row : Row) :
    List (Effect F) :=
  match createProposal fl row tiers skus with
  | .ret (some b, none) =>
    [.post b, .update (sentFlagRange (wrapInt ((Atoi b.ProposalID).1 + 1))) [[.str "Yes"]]]
  | _ => []

/-- What the loop issues for one row that it passes: nothing for a row that is
no candidate, the submission for a candidate. -/
def rowEffects {F : Type} (fl : FloatOps F) (tiers skus : List Row) (row : Row) :
    List (Effect F) :=
  if isCandidate row then submissionOf fl tiers skus row else []

/-- A row goes through: it resolves to a payload, the POST gets an answer
(any status), its id is an integer and the write of the flag succeeds. -/
def Submits {F : Type} (fl : FloatOps F) (env : Env F) (tiers skus : List Row)
    (row : Row) : Prop :=
  ∃ b resp p, createProposal fl row tiers skus = .ret (some b, none) ∧
    env.postProposals b = .ok resp ∧ Atoi b.ProposalID = (p, none) ∧
    env.valuesUpdate (sentFlagRange (wrapInt (p + 1))) [[.str "Yes"]] = none

/-- Whether the cell at sheet row `row` and column `col` lies in the range. -/
def A1Range.covers (r : A1Range) (row : Int) (col : Nat) : Bool :=
  decide (r.row ≤ row) && decide (r.col ≤ col) &&
    match r.last with
    | none => decide (row = r.row) && decide (col = r.col)
    | some (c, none) => decide (col ≤ c)
    | some (c, some lastRow) => decide (col ≤ c) && decide (row ≤ lastRow)

/-- The sheet row and column of cell `j` of the `i`-th row that a read of the
range returns. -/
def A1Range.position (r : A1Range) (i j : Nat) : Int × Nat := (r.row + i, r.col + j)

instance (F α : Type) [DecidableEq F] [DecidableEq α] : DecidableEq (M F α) :=
  inferInstanceAs (DecidableEq (List (Effect F) × Run α))

/-- The remote RFP summary with the given id. -/
def sampleRfp (id : String) : baselineRFP := ⟨id, "buyer-7", "supplier-1", "2021-01-31"⟩

/-- The detail of an RFP in the worked examples: `B` has two order items,
every other RFP one. -/
def sampleDetail (id : String) : rfpResponse String :=
  if id = "B" then
    ⟨id, "supplier-1", [⟨1, "bolt", "2.000000", "kg"⟩, ⟨2, "nut", "5.000000", "pcs"⟩],
      "2021-01-31"⟩
  else ⟨id, "supplier-1", [⟨1, "bolt", "2.000000", "kg"⟩], "2021-01-31"⟩

/-- A spreadsheet whose `RFPS` sheet holds, under its header row, the two RFPs
`A` and `B`, with the sample tier and SKU sheets and the given rows of the
`Proposals` sheet under its header row. -/
def sampleStore (proposalRows : List (List String)) : Store := fun sheet =>
  if sheet = "RFPS" then
    [["Id", "Buyer", "Items", "Delivery"], ["A", "Buyer", "1", "2021-01-31"],
      ["B", "Buyer", "2", "2021-01-31"]]
  else if sheet = "Proposal_Tiers" then
    [["Id", "SKU", "From", "To", "Unit", "Price", "Currency", "Buyer"],
      ["T1", "S1", "1", "10", "kg", "1.5", "EUR", "buyer-7"]]
  else if sheet = "SKU" then [["Id", "Name"], ["S1", "Widget"]]
  else if sheet = "Proposals" then ["Id", "Buyer", "RFP", "Tiers", "Sent"] :: proposalRows
  else []

/-- The text cells of a proposal row in the sample spreadsheet. -/
def sampleProposalCells (id tierIds sent : String) : List String :=
  [id, "Buyer", "rfp-1", tierIds, sent]

/-- The payload of the sample proposal row with the given id and tier `T1`. -/
def samplePayload (id : String) : baselineProposal String :=
  ⟨id, "Buyer", "rfp-1", [sampleTier]⟩

/-- The order-item row appended for item `o` of RFP `rfpId`. -/
def orderItemRow {F : Type} (fl : FloatOps F) (rfpId : String) (o : orderItem F) : Row :=
  [.str rfpId, .str (Itoa o.OrderItemID), .str o.SKUBuyer, .str (fl.Sprintf_f o.Quantity),
    .str o.Unit]

/-- The RFP summary row appended for an RFP detail. -/
def rfpRow {F : Type} (rfp : rfpResponse F) : Row :=
  [.str rfp.RequestForProposalID, .str "Buyer", .str (Itoa rfp.Items.length),
    .str rfp.LatestDeliveryDate]

/-- The appends of one RFP: one order-item row per item, then the RFP summary
row. -/
def rfpAppends {F : Type} (fl : FloatOps F) (id : String) (rfp : rfpResponse F) :
    List (Effect F) :=
  rfp.Items.map (fun o => Effect.append orderItemsAnchor (orderItemRow fl id o)) ++
    [Effect.append rfpsRange (rfpRow rfp)]

instance (tiers skus : List Row) : Decidable (WideRows tiers skus) := by
  unfold WideRows
  infer_instance

instance {F : Type} (fl : FloatOps F) (trow : Row) : Decidable (NumericOk fl trow) := by
  unfold NumericOk
  infer_instance

/-- An invocation in which the spreadsheet answers but the catalog service
cannot be reached. -/
def unreachableCatalog (st : Store) : Env String :=
  ⟨none, fun r => .ok (st.values r), fun _ _ => none, fun _ _ => none,
    .error (.io "dial tcp: connection refused"),
    fun _ => .error (.io "dial tcp: connection refused"),
    .error (.io "dial tcp: connection refused"),
    fun _ => .error (.io "dial tcp: connection refused")⟩

/-- Five local proposal rows with ids 1 to 5; the second is already sent. -/
def fiveProposals : List (List String) :=
  [sampleProposalCells "1" "T1" "No", sampleProposalCells "2" "T1" "Yes",
    sampleProposalCells "3" "T1" "No", sampleProposalCells "4" "T1" "No",
    sampleProposalCells "5" "T1" "No"]

/-- The catalog service knows `n` proposals. -/
def knownProposals (n : Nat) : List proposalResponse :=
  (List.range n).map fun i => ⟨Itoa (i + 1)⟩

/-- The status line of a successful submission. -/
def statusOk : Response := ⟨200, "200 OK"⟩

/-- The status line of a rejected submission. -/
def statusRejected : Response := ⟨500, "500 Internal Server Error"⟩

/-- The text of the cell at a sheet position (row from 1, column from 0), when
the sheet reaches that far. -/
def Store.cell (st : Store) (sheet : String) (pos : Int × Nat) : Option String :=
  if 1 ≤ pos.1 then ((st sheet)[(pos.1 - 1).toNat]?).bind fun cells => cells[pos.2]?
  else none

/-- Whether the effects write into the sent flag of the local row at index
`i`, the cell of column E in the sheet row where row `i` of the read
`Proposals!A2:Z` sits. -/
def marksRow {F : Type} (tr : List (Effect F)) (i : Nat) : Bool :=
  tr.any fun e =>
    match e with
    | .update r _ =>
      decide (r.sheet = proposalsRange.sheet) &&
        r.covers (proposalsRange.position i 4).1 (proposalsRange.position i 4).2
    | _ => false

/-- Whether the top-to-bottom scan of `rows` for `id` indexes every row in
range when the matching row is then read up to cell `w - 1`: no row above
the first match is empty, and the first match has at least `w` cells; with
no match, no row at all is empty. -/
def scanOk (rows : List Row) (id : String) (w : Nat) : Bool :=
  match rows with
  | [] => true
  | [] :: _ => false
  | (c :: cs) :: rest =>
    if c.eqStr id then decide (w ≤ (c :: cs).length) else scanOk rest id w

/-- Whether the lookup of the tier id `id` indexes every row in range: the
scan of the tier rows, the matching tier row being read up to its eighth
cell, and then the scan of the SKU rows for its SKU reference, the matching
SKU row being read up to its second cell. -/
def lookupSafe (tiers skus : List Row) (id : String) : Bool :=
  scanOk tiers id 8 &&
    match tiers.find? (firstColIs id) with
    | none => true
    | some trow => scanOk skus (cellText trow 1) 2

/-- A spreadsheet whose one tier row `T1` has the given quantity-from text and
a blank buyer cell, with the sample SKU sheet and the given rows of the
`Proposals` sheet under its header row. -/
def blankBuyerStore (quantityFrom : String) (proposalRows : List (List String)) : Store :=
  fun sheet =>
    if sheet = "Proposal_Tiers" then
      [["Id", "SKU", "From", "To", "Unit", "Price", "Currency", "Buyer"],
        ["T1", "S1", quantityFrom, "10", "kg", "1.5", "EUR", ""]]
    else if sheet = "SKU" then [["Id", "Name"], ["S1", "Widget"]]
    else if sheet = "Proposals" then ["Id", "Buyer", "RFP", "Tiers", "Sent"] :: proposalRows
    else []

/-- The tier row `T1` as the read returns it when its buyer cell is blank:
seven cells. -/
def sevenCellTier (quantityFrom : String) : Row :=
  [.str "T1", .str "S1", .str quantityFrom, .str "10", .str "kg", .str "1.5", .str "EUR"]

/-! ## Basic facts -/

@[simp] theorem Run.ret_bind {α β : Type} (a : α) (f : α → Run β) :
    (Run.ret a >>= f) = f a := rfl

@[simp] theorem Run.panic_bind {α β : Type} (f : α → Run β) :
    ((Run.panic : Run α) >>= f) = Run.panic := rfl

@[simp] theorem Run.exit_bind {α β : Type} (f : α → Run β) :
    ((Run.exit : Run α) >>= f) = Run.exit := rfl

@[simp] theorem Run.pure_is_ret {α : Type} (a : α) : (pure a : Run α) = Run.ret a := rfl

theorem index_of_lt {α : Type} (row : List α) (i : Nat) (h : i < row.length) :
    index row i = .ret (row.get ⟨i, h⟩) := by
  simp [index, List.getElem?_eq_getElem h]

theorem cellText_of_lt (row : Row) (i : Nat) (h : i < row.length) :
    cellText row i = (row.get ⟨i, h⟩).sprint := by
  simp [cellText, List.getElem?_eq_getElem h]

/-! ## The join resolver is a first-match lookup -/

theorem getSKU_found (skuID buyerId : String) (skus extra : List Row) (srow : Row)
    (hS : ∀ row ∈ skus, 2 ≤ row.length)
    (h : skus.find? (firstColIs skuID) = some srow) :
    getSKU skuID (skus ++ extra) buyerId = .ret (skuOfRow srow buyerId, none) := by
  induction skus with
  | nil => simp at h
  | cons row rest ih =>
    have hrow : 2 ≤ row.length := hS row (List.mem_cons_self _ _)
    have hrest : ∀ r ∈ rest, 2 ≤ r.length := fun r hr => hS r (List.mem_cons_of_mem _ hr)
    match row, hrow with
    | a :: b :: tl, _ =>
      simp only [List.cons_append, getSKU, index, List.getElem?_cons_zero,
        List.getElem?_cons_succ, Run.ret_bind]
      by_cases hab : a.eqStr skuID = true
      · simp only [hab, if_true]
        have : srow = a :: b :: tl := by
          simpa [List.find?, firstColIs, hab] using h.symm
        subst this
        simp [skuOfRow, cellText]
      · simp only [hab]
        have h2 : rest.find? (firstColIs skuID) = some srow := by
          simpa [List.find?, firstColIs, hab] using h
        simpa using ih hrest h2

theorem getSKU_missing (skuID buyerId : String) (skus : List Row)
    (hS : ∀ row ∈ skus, 2 ≤ row.length)
    (h : skus.find? (firstColIs skuID) = none) :
    getSKU skuID skus buyerId =
      .ret (zeroSku, some (.errorf ("Could not find sku with id " ++ skuID))) := by
  induction skus with
  | nil => simp [getSKU]
  | cons row rest ih =>
    have hrow : 2 ≤ row.length := hS row (List.mem_cons_self _ _)
    have hrest : ∀ r ∈ rest, 2 ≤ r.length := fun r hr => hS r (List.mem_cons_of_mem _ hr)
    match row, hrow with
    | a :: b :: tl, _ =>
      simp only [getSKU, index, List.getElem?_cons_zero, Run.ret_bind]
      by_cases hab : a.eqStr skuID = true
      · simp [List.find?, firstColIs, hab] at h
      · simp only [hab]
        have h2 : rest.find? (firstColIs skuID) = none := by
          simpa [List.find?, firstColIs, hab] using h
        simpa using ih hrest h2

theorem priceScaleOfRow_found {F : Type} (fl : FloatOps F) (trow srow : Row)
    (skus extra : List Row) (hT : 8 ≤ trow.length) (hS : ∀ row ∈ skus, 2 ≤ row.length)
    (h : skus.find? (firstColIs (cellText trow 1)) = some srow) :
    priceScaleOfRow fl trow (skus ++ extra) = .ret (tierOrParseError fl trow srow) := by
  match trow, hT with
  | a0 :: a1 :: a2 :: a3 :: a4 :: a5 :: a6 :: a7 :: tl, _ =>
    have hsku := getSKU_found a1.sprint a7.sprint skus extra srow hS
      (by simpa [cellText] using h)
    rcases h2 : Atoi a2.sprint with ⟨q2, e2⟩
    rcases h3 : Atoi a3.sprint with ⟨q3, e3⟩
    rcases h5 : fl.ParseFloat32 a5.sprint with ⟨q5, e5⟩
    cases e2 <;> cases e3 <;> cases e5 <;>
      simp [priceScaleOfRow, index, hsku, tierOrParseError, tierOfRows, cellText, h2, h3, h5]

theorem priceScaleOfRow_missing {F : Type} (fl : FloatOps F) (trow : Row)
    (skus : List Row) (hT : 8 ≤ trow.length) (hS : ∀ row ∈ skus, 2 ≤ row.length)
    (h : skus.find? (firstColIs (cellText trow 1)) = none) :
    priceScaleOfRow fl trow skus = .ret (zeroPriceScale fl,
      some (.errorf ("Could not find sku with id " ++ cellText trow 1))) := by
  match trow, hT with
  | a0 :: a1 :: a2 :: a3 :: a4 :: a5 :: a6 :: a7 :: tl, _ =>
    have hsku := getSKU_missing a1.sprint a7.sprint skus hS (by simpa [cellText] using h)
    simp [priceScaleOfRow, index, hsku, cellText]

theorem getPriceScale_found {F : Type} (fl : FloatOps F) (id : String)
    (tiers extra skus : List Row) (trow : Row)
    (hT : ∀ row ∈ tiers, 8 ≤ row.length)
    (h : tiers.find? (firstColIs id) = some trow) :
    getPriceScale fl id (tiers ++ extra) skus = priceScaleOfRow fl trow skus := by
  induction tiers with
  | nil => simp at h
  | cons row rest ih =>
    have hrow : 8 ≤ row.length := hT row (List.mem_cons_self _ _)
    have hrest : ∀ r ∈ rest, 8 ≤ r.length := fun r hr => hT r (List.mem_cons_of_mem _ hr)
    match row, hrow with
    | a :: tl, _ =>
      simp only [List.cons_append, getPriceScale, index, List.getElem?_cons_zero,
        Run.ret_bind]
      by_cases hab : a.eqStr id = true
      · simp only [hab, if_true]
        have : trow = a :: tl := by
          simpa [List.find?, firstColIs, hab] using h.symm
        rw [this]
      · simp only [hab]
        have h2 : rest.find? (firstColIs id) = some trow := by
          simpa [List.find?, firstColIs, hab] using h
        simpa using ih hrest h2

theorem getPriceScale_missing {F : Type} (fl : FloatOps F) (id : String)
    (tiers skus : List Row) (hT : ∀ row ∈ tiers, 8 ≤ row.length)
    (h : tiers.find? (firstColIs id) = none) :
    getPriceScale fl id tiers skus = .ret (zeroPriceScale fl,
      some (.errorf ("Could not find price scale with id " ++ id))) := by
  induction tiers with
  | nil => simp [getPriceScale]
  | cons row rest ih =>
    have hrow : 8 ≤ row.length := hT row (List.mem_cons_self _ _)
    have hrest : ∀ r ∈ rest, 8 ≤ r.length := fun r hr => hT r (List.mem_cons_of_mem _ hr)
    match row, hrow with
    | a :: tl, _ =>
      simp only [getPriceScale, index, List.getElem?_cons_zero, Run.ret_bind]
      by_cases hab : a.eqStr id = true
      · simp [List.find?, firstColIs, hab] at h
      · simp only [hab]
        have h2 : rest.find? (firstColIs id) = none := by
          simpa [List.find?, firstColIs, hab] using h
        simpa using ih hrest h2

theorem find_mem_length {tiers : List Row} {p : Row → Bool} {trow : Row} {n : Nat}
    (hT : ∀ row ∈ tiers, n ≤ row.length) (h : tiers.find? p = some trow) :
    n ≤ trow.length :=
  hT trow (List.mem_of_find?_eq_some h)

/-- Under the row widths the code relies on, `getPriceScale` is the lookup
`resolveTier`: it returns, and with that value. -/
theorem getPriceScale_eq_resolveTier {F : Type} (fl : FloatOps F) (id : String)
    (tiers skus : List Row) (hW : WideRows tiers skus) :
    getPriceScale fl id tiers skus = .ret (resolveTier fl tiers skus id) := by
  unfold resolveTier
  cases hf : tiers.find? (firstColIs id) with
  | none => simpa using getPriceScale_missing fl id tiers skus hW.1 hf
  | some trow =>
    have h8 : 8 ≤ trow.length := find_mem_length hW.1 hf
    have h1 := getPriceScale_found fl id tiers [] skus trow hW.1 hf
    rw [List.append_nil] at h1
    rw [h1]
    cases hs : skus.find? (firstColIs (cellText trow 1)) with
    | none => simpa [hs] using priceScaleOfRow_missing fl trow skus h8 hW.2 hs
    | some srow =>
      have h2 := priceScaleOfRow_found fl trow srow skus [] h8 hW.2 hs
      rw [List.append_nil] at h2
      simpa [hs] using h2

/-- The loop of `createProposal` when every lookup returns: it stops at the
first id whose lookup gives an error, and otherwise collects the tiers in
the order of the ids. -/
theorem createProposalLoop_of_ret {F : Type} (fl : FloatOps F) (tiers skus : List Row)
    (g : String → baselinePriceScale F × Option GoErr) (ids : List String)
    (hg : ∀ id ∈ ids, getPriceScale fl id tiers skus = .ret (g id))
    (done : List (baselinePriceScale F)) :
    ∃ ps err, createProposalLoop fl tiers skus ids done = .ret (ps, err) ∧
      ((∀ id ∈ ids, (g id).2 = none) →
        err = none ∧ ps = done ++ ids.map fun id => (g id).1) ∧
      (∀ pre id post e, ids = pre ++ id :: post → (∀ k ∈ pre, (g k).2 = none) →
        (g id).2 = some e → err = some e) := by
  induction ids generalizing done with
  | nil =>
    refine ⟨done, none, by simp [createProposalLoop], by simp, ?_⟩
    intro pre id post e h
    simp at h
  | cons k ks ih =>
    have hk := hg k (List.mem_cons_self _ _)
    have hks : ∀ id ∈ ks, getPriceScale fl id tiers skus = .ret (g id) :=
      fun id hid => hg id (List.mem_cons_of_mem _ hid)
    rcases hgk : g k with ⟨p, e⟩
    cases e with
    | some e =>
      refine ⟨done ++ [p], some e, by simp [createProposalLoop, hk, hgk], ?_, ?_⟩
      · intro hall
        have := hall k (List.mem_cons_self _ _)
        simp [hgk] at this
      · intro pre id post e2 hsplit hpre hid
        cases pre with
        | nil =>
          simp at hsplit
          obtain ⟨h1, _⟩ := hsplit
          subst h1
          simpa [hgk] using hid
        | cons a pre2 =>
          simp at hsplit
          obtain ⟨h1, _⟩ := hsplit
          subst h1
          have := hpre k (List.mem_cons_self _ _)
          simp [hgk] at this
    | none =>
      obtain ⟨ps, err, hrun, hok, hfail⟩ := ih hks (done ++ [p])
      refine ⟨ps, err, by simp [createProposalLoop, hk, hgk, hrun], ?_, ?_⟩
      · intro hall
        obtain ⟨h1, h2⟩ := hok (fun id hid => hall id (List.mem_cons_of_mem _ hid))
        exact ⟨h1, by simp [h2, hgk]⟩
      · intro pre id post e2 hsplit hpre hid
        cases pre with
        | nil =>
          simp at hsplit
          obtain ⟨h1, _⟩ := hsplit
          subst h1
          simp [hgk] at hid
        | cons a pre2 =>
          simp at hsplit
          obtain ⟨h1, h2⟩ := hsplit
          exact hfail pre2 id post e2 h2
            (fun x hx => hpre x (List.mem_cons_of_mem _ hx)) hid

/-- The value of `createProposal` on a row with its four leading cells, when
its loop ends without error. -/
theorem createProposal_of_loop_ok {F : Type} (fl : FloatOps F) (c0 c1 c2 c3 : Cell)
    (more : Row) (tiers skus : List Row) (ps : List (baselinePriceScale F))
    (h : createProposalLoop fl tiers skus (stringsSplitComma c3.sprint) [] = .ret (ps, none)) :
    createProposal fl (c0 :: c1 :: c2 :: c3 :: more) tiers skus =
      .ret (some ⟨c0.sprint, c1.sprint, c2.sprint, ps⟩, none) := by
  simp [createProposal, index, h]

/-- The value of `createProposal` on a row with its four leading cells, when
its loop ends with an error. -/
theorem createProposal_of_loop_err {F : Type} (fl : FloatOps F) (c0 c1 c2 c3 : Cell)
    (more : Row) (tiers skus : List Row) (ps : List (baselinePriceScale F)) (e : GoErr)
    (h : createProposalLoop fl tiers skus (stringsSplitComma c3.sprint) [] =
      .ret (ps, some e)) :
    createProposal fl (c0 :: c1 :: c2 :: c3 :: more) tiers skus = .ret (none, some e) := by
  simp [createProposal, index, h]

theorem resolveTier_of_found {F : Type} (fl : FloatOps F) (tiers skus : List Row)
    (id : String) (trow srow : Row) (ht : tiers.find? (firstColIs id) = some trow)
    (hs : skus.find? (firstColIs (cellText trow 1)) = some srow) :
    resolveTier fl tiers skus id = tierOrParseError fl trow srow := by
  simp [resolveTier, ht, hs]

theorem tierOrParseError_ok {F : Type} (fl : FloatOps F) (trow srow : Row)
    (h : NumericOk fl trow) :
    tierOrParseError fl trow srow = (tierOfRows fl trow srow, none) := by
  obtain ⟨h2, h3, h5⟩ := h
  simp [tierOrParseError, h2, h3, h5]

theorem tierOrParseError_bad {F : Type} (fl : FloatOps F) (trow srow : Row)
    (h : ¬ NumericOk fl trow) :
    ∃ e, (tierOrParseError fl trow srow).2 = some e := by
  unfold tierOrParseError
  cases h2 : (Atoi (cellText trow 2)).2 with
  | some e => exact ⟨e, rfl⟩
  | none =>
    cases h3 : (Atoi (cellText trow 3)).2 with
    | some e => exact ⟨e, rfl⟩
    | none =>
      cases h5 : (fl.ParseFloat32 (cellText trow 5)).2 with
      | some e => exact ⟨e, rfl⟩
      | none => exact absurd ⟨h2, h3, h5⟩ h

/-- A lookup that finds its tier row and SKU row in the upper part of the
ranges is not changed by rows added below. -/
theorem getPriceScale_lower_rows {F : Type} (fl : FloatOps F) (id : String)
    (tiers skus lowerTiers lowerSkus : List Row) (trow srow : Row)
    (hW : WideRows tiers skus) (ht : tiers.find? (firstColIs id) = some trow)
    (hs : skus.find? (firstColIs (cellText trow 1)) = some srow) :
    getPriceScale fl id (tiers ++ lowerTiers) (skus ++ lowerSkus) =
      .ret (resolveTier fl tiers skus id) := by
  rw [getPriceScale_found fl id tiers lowerTiers (skus ++ lowerSkus) trow hW.1 ht,
    priceScaleOfRow_found fl trow srow skus lowerSkus (find_mem_length hW.1 ht) hW.2 hs,
    resolveTier_of_found fl tiers skus id trow srow ht hs]

/-! ## `strconv.Atoi` stays within `int` -/

theorem atoiDigits_range (s : String) (neg : Bool) (ds : List Char) (p : Int)
    (h : atoiDigits s neg ds = (p, none)) : minInt ≤ p ∧ p ≤ maxInt := by
  unfold atoiDigits at h
  simp only [minInt, maxInt] at h ⊢
  split at h
  · simp at h
  · split at h
    · simp at h
    · split at h
      · split at h
        · simp at h
        · simp only [Prod.mk.injEq, and_true] at h
          omega
      · split at h
        · simp at h
        · simp only [Prod.mk.injEq, and_true] at h
          omega

theorem Atoi_range (s : String) (p : Int) (h : Atoi s = (p, none)) :
    minInt ≤ p ∧ p ≤ maxInt := by
  unfold Atoi at h
  split at h
  · simp at h
  · split at h
    · exact atoiDigits_range s _ _ p h
    · split at h <;> exact atoiDigits_range s _ _ p h

/-! ## Lookups that stay in range -/

theorem scanOk_width (rows : List Row) (id : String) (w : Nat) (row : Row)
    (hs : scanOk rows id w = true) (h : rows.find? (firstColIs id) = some row) :
    w ≤ row.length := by
  induction rows with
  | nil => simp at h
  | cons r rest ih =>
    match r with
    | [] => simp [scanOk] at hs
    | c :: cs =>
      by_cases hc : c.eqStr id = true
      · have : row = c :: cs := by simpa [List.find?, firstColIs, hc] using h.symm
        rw [this]
        simpa [scanOk, hc] using hs
      · exact ih (by simpa [scanOk, hc] using hs)
          (by simpa [List.find?, firstColIs, hc] using h)

theorem scanOk_of_wide (rows : List Row) (id : String) (w : Nat) (hw : 1 ≤ w)
    (h : ∀ row ∈ rows, w ≤ row.length) : scanOk rows id w = true := by
  induction rows with
  | nil => simp [scanOk]
  | cons r rest ih =>
    have hr : w ≤ r.length := h r (List.mem_cons_self _ _)
    have hrest : ∀ x ∈ rest, w ≤ x.length := fun x hx => h x (List.mem_cons_of_mem _ hx)
    match r, hr with
    | [], hr => simp at hr; omega
    | c :: cs, hr =>
      by_cases hc : c.eqStr id = true
      · simpa [scanOk, hc] using hr
      · simpa [scanOk, hc] using ih hrest

theorem lookupSafe_of_wide (tiers skus : List Row) (id : String)
    (hW : WideRows tiers skus) : lookupSafe tiers skus id = true := by
  unfold lookupSafe
  rw [scanOk_of_wide tiers id 8 (by decide) hW.1]
  cases tiers.find? (firstColIs id) with
  | none => rfl
  | some trow => simpa using scanOk_of_wide skus _ 2 (by decide) hW.2

theorem getSKU_scan_found (skuID buyerId : String) (skus extra : List Row) (srow : Row)
    (hS : scanOk skus skuID 2 = true)
    (h : skus.find? (firstColIs skuID) = some srow) :
    getSKU skuID (skus ++ extra) buyerId = .ret (skuOfRow srow buyerId, none) := by
  induction skus with
  | nil => simp at h
  | cons row rest ih =>
    match row with
    | [] => simp [scanOk] at hS
    | a :: cs =>
      by_cases hab : a.eqStr skuID = true
      · have hlen : 2 ≤ (a :: cs).length := by simpa [scanOk, hab] using hS
        match cs, hlen with
        | b :: tl, _ =>
          have : srow = a :: b :: tl := by
            simpa [List.find?, firstColIs, hab] using h.symm
          subst this
          simp [getSKU, index, hab, skuOfRow, cellText]
      · have h2 : rest.find? (firstColIs skuID) = some srow := by
          simpa [List.find?, firstColIs, hab] using h
        have hS2 : scanOk rest skuID 2 = true := by simpa [scanOk, hab] using hS
        simpa [getSKU, index, hab] using ih hS2 h2

theorem getSKU_scan_missing (skuID buyerId : String) (skus : List Row)
    (hS : scanOk skus skuID 2 = true)
    (h : skus.find? (firstColIs skuID) = none) :
    getSKU skuID skus buyerId =
      .ret (zeroSku, some (.errorf ("Could not find sku with id " ++ skuID))) := by
  induction skus with
  | nil => simp [getSKU]
  | cons row rest ih =>
    match row with
    | [] => simp [scanOk] at hS
    | a :: cs =>
      by_cases hab : a.eqStr skuID = true
      · simp [List.find?, firstColIs, hab] at h
      · have h2 : rest.find? (firstColIs skuID) = none := by
          simpa [List.find?, firstColIs, hab] using h
        have hS2 : scanOk rest skuID 2 = true := by simpa [scanOk, hab] using hS
        simpa [getSKU, index, hab] using ih hS2 h2

theorem priceScaleOfRow_scan_found {F : Type} (fl : FloatOps F) (trow srow : Row)
    (skus extra : List Row) (hT : 8 ≤ trow.length)
    (hS : scanOk skus (cellText trow 1) 2 = true)
    (h : skus.find? (firstColIs (cellText trow 1)) = some srow) :
    priceScaleOfRow fl trow (skus ++ extra) = .ret (tierOrParseError fl trow srow) := by
  match trow, hT with
  | a0 :: a1 :: a2 :: a3 :: a4 :: a5 :: a6 :: a7 :: tl, _ =>
    have hsku := getSKU_scan_found a1.sprint a7.sprint skus extra srow
      (by simpa [cellText] using hS) (by simpa [cellText] using h)
    rcases h2 : Atoi a2.sprint with ⟨q2, e2⟩
    rcases h3 : Atoi a3.sprint with ⟨q3, e3⟩
    rcases h5 : fl.ParseFloat32 a5.sprint with ⟨q5, e5⟩
    cases e2 <;> cases e3 <;> cases e5 <;>
      simp [priceScaleOfRow, index, hsku, tierOrParseError, tierOfRows, cellText, h2, h3, h5]

theorem priceScaleOfRow_scan_missing {F : Type} (fl : FloatOps F) (trow : Row)
    (skus : List Row) (hT : 8 ≤ trow.length)
    (hS : scanOk skus (cellText trow 1) 2 = true)
    (h : skus.find? (firstColIs (cellText trow 1)) = none) :
    priceScaleOfRow fl trow skus = .ret (zeroPriceScale fl,
      some (.errorf ("Could not find sku with id " ++ cellText trow 1))) := by
  match trow, hT with
  | a0 :: a1 :: a2 :: a3 :: a4 :: a5 :: a6 :: a7 :: tl, _ =>
    have hsku := getSKU_scan_missing a1.sprint a7.sprint skus
      (by simpa [cellText] using hS) (by simpa [cellText] using h)
    simp [priceScaleOfRow, index, hsku, cellText]

theorem getPriceScale_scan_found {F : Type} (fl : FloatOps F) (id : String)
    (tiers extra skus : List Row) (trow : Row)
    (hT : scanOk tiers id 8 = true)
    (h : tiers.find? (firstColIs id) = some trow) :
    getPriceScale fl id (tiers ++ extra) skus = priceScaleOfRow fl trow skus := by
  induction tiers with
  | nil => simp at h
  | cons row rest ih =>
    match row with
    | [] => simp [scanOk] at hT
    | a :: tl =>
      by_cases hab : a.eqStr id = true
      · have : trow = a :: tl := by
          simpa [List.find?, firstColIs, hab] using h.symm
        rw [this]
        simp [getPriceScale, index, hab]
      · have h2 : rest.find? (firstColIs id) = some trow := by
          simpa [List.find?, firstColIs, hab] using h
        have hT2 : scanOk rest id 8 = true := by simpa [scanOk, hab] using hT
        simpa [getPriceScale, index, hab] using ih hT2 h2

theorem getPriceScale_scan_missing {F : Type} (fl : FloatOps F) (id : String)
    (tiers skus : List Row) (hT : scanOk tiers id 8 = true)
    (h : tiers.find? (firstColIs id) = none) :
    getPriceScale fl id tiers skus = .ret (zeroPriceScale fl,
      some (.errorf ("Could not find price scale with id " ++ id))) := by
  induction tiers with
  | nil => simp [getPriceScale]
  | cons row rest ih =>
    match row with
    | [] => simp [scanOk] at hT
    | a :: tl =>
      by_cases hab : a.eqStr id = true
      · simp [List.find?, firstColIs, hab] at h
      · have h2 : rest.find? (firstColIs id) = none := by
          simpa [List.find?, firstColIs, hab] using h
        have hT2 : scanOk rest id 8 = true := by simpa [scanOk, hab] using hT
        simpa [getPriceScale, index, hab] using ih hT2 h2

/-- A lookup that stays in range is the lookup `resolveTier`: it returns, and
with that value. -/
theorem getPriceScale_of_safe {F : Type} (fl : FloatOps F) (id : String)
    (tiers skus : List Row) (hsafe : lookupSafe tiers skus id = true) :
    getPriceScale fl id tiers skus = .ret (resolveTier fl tiers skus id) := by
  unfold lookupSafe at hsafe
  unfold resolveTier
  cases hf : tiers.find? (firstColIs id) with
  | none =>
    simp only [hf, Bool.and_true] at hsafe
    simpa using getPriceScale_scan_missing fl id tiers skus hsafe hf
  | some trow =>
    simp only [hf, Bool.and_eq_true] at hsafe
    have h8 : 8 ≤ trow.length := scanOk_width tiers id 8 trow hsafe.1 hf
    have h1 := getPriceScale_scan_found fl id tiers [] skus trow hsafe.1 hf
    rw [List.append_nil] at h1
    rw [h1]
    cases hs : skus.find? (firstColIs (cellText trow 1)) with
    | none => simpa [hs] using priceScaleOfRow_scan_missing fl trow skus h8 hsafe.2 hs
    | some srow =>
      have h2 := priceScaleOfRow_scan_found fl trow srow skus [] h8 hsafe.2 hs
      rw [List.append_nil] at h2
      simpa [hs] using h2

/-- A lookup that stays in range and finds its tier row and SKU row is not
changed by rows added below. -/
theorem getPriceScale_safe_lower_rows {F : Type} (fl : FloatOps F) (id : String)
    (tiers skus lowerTiers lowerSkus : List Row) (trow srow : Row)
    (hsafe : lookupSafe tiers skus id = true)
    (ht : tiers.find? (firstColIs id) = some trow)
    (hs : skus.find? (firstColIs (cellText trow 1)) = some srow) :
    getPriceScale fl id (tiers ++ lowerTiers) (skus ++ lowerSkus) =
      .ret (resolveTier fl tiers skus id) := by
  unfold lookupSafe at hsafe
  simp only [ht, Bool.and_eq_true] at hsafe
  rw [getPriceScale_scan_found fl id tiers lowerTiers (skus ++ lowerSkus) trow hsafe.1 ht,
    priceScaleOfRow_scan_found fl trow srow skus lowerSkus
      (scanOk_width tiers id 8 trow hsafe.1 ht) hsafe.2 hs,
    resolveTier_of_found fl tiers skus id trow srow ht hs]

/-- The loop of `createProposal` on ids whose lookups return: when the ids of
`pre` resolve and the lookup of the next id gives an error, the loop ends
with that error, whatever the ids after it. -/
theorem createProposalLoop_first_failure {F : Type} (fl : FloatOps F)
    (tiers skus : List Row) (g : String → baselinePriceScale F × Option GoErr)
    (pre post : List String) (y : String) (e : GoErr)
    (hpre : ∀ k ∈ pre, getPriceScale fl k tiers skus = .ret (g k) ∧ (g k).2 = none)
    (hy : getPriceScale fl y tiers skus = .ret (g y)) (he : (g y).2 = some e)
    (done : List (baselinePriceScale F)) :
    ∃ ps, createProposalLoop fl tiers skus (pre ++ y :: post) done = .ret (ps, some e) := by
  induction pre generalizing done with
  | nil =>
    rcases hgy : g y with ⟨p, err⟩
    rw [hgy] at he hy
    simp only at he
    subst he
    exact ⟨done ++ [p], by simp [createProposalLoop, hy]⟩
  | cons k ks ih =>
    obtain ⟨hk, hkn⟩ := hpre k (List.mem_cons_self _ _)
    rcases hgk : g k with ⟨p, err⟩
    rw [hgk] at hk hkn
    simp only at hkn
    subst hkn
    obtain ⟨ps, hps⟩ := ih (fun x hx => hpre x (List.mem_cons_of_mem _ hx)) (done ++ [p])
    exact ⟨ps, by simp [createProposalLoop, hk, hps]⟩

/-! ## Running effectful code -/

@[simp] theorem M.bind_eq {F α β : Type} (x : M F α) (f : α → M F β) :
    (x >>= f) = M.bind x f := rfl

@[simp] theorem M.pure_is_pair {F α : Type} (a : α) : (pure a : M F α) = ([], Run.ret a) := rfl

theorem M.bind_ret {F α β : Type} (tr : List (Effect F)) (a : α) (f : α → M F β) :
    M.bind (tr, Run.ret a) f = (tr ++ (f a).1, (f a).2) := rfl

theorem M.bind_panic {F α β : Type} (tr : List (Effect F)) (f : α → M F β) :
    M.bind ((tr, Run.panic) : M F α) f = (tr, Run.panic) := rfl

theorem M.bind_exit {F α β : Type} (tr : List (Effect F)) (f : α → M F β) :
    M.bind ((tr, Run.exit) : M F α) f = (tr, Run.exit) := rfl

theorem sendProposal_answered {F : Type} (env : Env F) (b : baselineProposal F)
    (resp : Response) (h : env.postProposals b = .ok resp) :
    sendProposal env b = ([.post b], .ret (if resp.StatusCode ≠ 200 then
      some (.errorf ("Posting proposal returned status code " ++ resp.Status)) else none)) := by
  by_cases hs : resp.StatusCode = 200 <;>
    simp [sendProposal, emit, h, hs, M.bind]

theorem sendProposal_failed {F : Type} (env : Env F) (b : baselineProposal F)
    (e : GoErr) (h : env.postProposals b = .error e) :
    sendProposal env b = ([.post b], .panic) := by
  simp [sendProposal, emit, h, M.bind, goPanic]

theorem markProposalSent_unparsed {F : Type} (env : Env F) (id : String) (v : Int)
    (e : GoErr) (h : Atoi id = (v, some e)) :
    markProposalSent env id = ([], .ret (some e)) := by
  simp [markProposalSent, h]

theorem markProposalSent_written {F : Type} (env : Env F) (id : String) (p : Int)
    (h : Atoi id = (p, none))
    (hu : env.valuesUpdate (sentFlagRange (wrapInt (p + 1))) [[.str "Yes"]] = none) :
    markProposalSent env id =
      ([.update (sentFlagRange (wrapInt (p + 1))) [[.str "Yes"]]], .ret none) := by
  simp [markProposalSent, h, hu, emit, M.bind]

theorem markProposalSent_rejected {F : Type} (env : Env F) (id : String) (p : Int)
    (e : GoErr) (h : Atoi id = (p, none))
    (hu : env.valuesUpdate (sentFlagRange (wrapInt (p + 1))) [[.str "Yes"]] = some e) :
    markProposalSent env id =
      ([.update (sentFlagRange (wrapInt (p + 1))) [[.str "Yes"]]], .exit) := by
  simp [markProposalSent, h, hu, emit, M.bind, logFatalf]

/-! ## One pass of the outbound loop -/

theorem sendNewProposals_short_row {F : Type} (fl : FloatOps F) (env : Env F)
    (tiers skus : List Row) (row : Row) (rest : List Row) (sent : Int)
    (h4 : index row 4 = .panic) :
    sendNewProposals fl env tiers skus (row :: rest) sent = ([], .panic) := by
  simp [sendNewProposals, liftRun, h4, M.bind]

theorem sendNewProposals_skip {F : Type} (fl : FloatOps F) (env : Env F)
    (tiers skus : List Row) (row : Row) (rest : List Row) (sent : Int) (c4 : Cell)
    (h4 : index row 4 = .ret c4) (hflag : c4.eqStr "No" = false) :
    sendNewProposals fl env tiers skus (row :: rest) sent =
      sendNewProposals fl env tiers skus rest sent := by
  simp [sendNewProposals, liftRun, h4, hflag, M.bind]

theorem sendNewProposals_unresolved {F : Type} (fl : FloatOps F) (env : Env F)
    (tiers skus : List Row) (row : Row) (rest : List Row) (sent : Int) (c4 : Cell)
    (b : Option (baselineProposal F)) (e : GoErr)
    (h4 : index row 4 = .ret c4) (hflag : c4.eqStr "No" = true)
    (hc : createProposal fl row tiers skus = .ret (b, some e)) :
    sendNewProposals fl env tiers skus (row :: rest) sent = ([], .ret (sent, some e)) := by
  simp [sendNewProposals, liftRun, h4, hflag, hc, M.bind]

theorem sendNewProposals_resolve_panic {F : Type} (fl : FloatOps F) (env : Env F)
    (tiers skus : List Row) (row : Row) (rest : List Row) (sent : Int) (c4 : Cell)
    (h4 : index row 4 = .ret c4) (hflag : c4.eqStr "No" = true)
    (hc : createProposal fl row tiers skus = .panic ∨
      createProposal fl row tiers skus = .ret (none, none)) :
    sendNewProposals fl env tiers skus (row :: rest) sent = ([], .panic) := by
  rcases hc with hc | hc <;>
    simp [sendNewProposals, liftRun, h4, hflag, hc, M.bind, goPanic]

theorem sendNewProposals_resolved {F : Type} (fl : FloatOps F) (env : Env F)
    (tiers skus : List Row) (row : Row) (rest : List Row) (sent : Int) (c4 : Cell)
    (b : baselineProposal F)
    (h4 : index row 4 = .ret c4) (hflag : c4.eqStr "No" = true)
    (hc : createProposal fl row tiers skus = .ret (some b, none)) :
    sendNewProposals fl env tiers skus (row :: rest) sent =
      M.bind (sendProposal env b) fun _ =>
        M.bind (markProposalSent env b.ProposalID) fun err =>
          match err with
          | some e => ([], .ret (sent, some e))
          | none => sendNewProposals fl env tiers skus rest (sent + 1) := by
  simp [sendNewProposals, liftRun, h4, hflag, hc, M.bind]

/-- A submitted row: the POST, whatever its status line, then the mark, then
the rest of the loop with the counter increased. -/
theorem sendNewProposals_sent {F : Type} (fl : FloatOps F) (env : Env F)
    (tiers skus : List Row) (row : Row) (rest : List Row) (sent : Int) (c4 : Cell)
    (b : baselineProposal F) (resp : Response) (p : Int)
    (h4 : index row 4 = .ret c4) (hflag : c4.eqStr "No" = true)
    (hc : createProposal fl row tiers skus = .ret (some b, none))
    (hpost : env.postProposals b = .ok resp)
    (hid : Atoi b.ProposalID = (p, none))
    (hu : env.valuesUpdate (sentFlagRange (wrapInt (p + 1))) [[.str "Yes"]] = none) :
    sendNewProposals fl env tiers skus (row :: rest) sent =
      ([.post b, .update (sentFlagRange (wrapInt (p + 1))) [[.str "Yes"]]] ++
          (sendNewProposals fl env tiers skus rest (sent + 1)).1,
        (sendNewProposals fl env tiers skus rest (sent + 1)).2) := by
  rw [sendNewProposals_resolved fl env tiers skus row rest sent c4 b h4 hflag hc,
    sendProposal_answered env b resp hpost, M.bind_ret,
    markProposalSent_written env b.ProposalID p hid hu, M.bind_ret]
  simp

theorem index_ret {α : Type} (row : List α) (i : Nat) (c : α) (h : index row i = .ret c) :
    row[i]? = some c := by
  unfold index at h
  split at h
  · next c2 hc =>
    injection h with h
    rw [hc, h]
  · exact absurd h (by simp)

theorem index_panic {α : Type} (row : List α) (i : Nat) (h : index row i = .panic) :
    row[i]? = none := by
  unfold index at h
  split at h
  · exact absurd h (by simp)
  · next hc => exact hc

theorem index_not_exit {α : Type} (row : List α) (i : Nat) : index row i ≠ .exit := by
  unfold index
  split <;> simp

theorem submissionOf_resolved {F : Type} (fl : FloatOps F) (tiers skus : List Row)
    (row : Row) (b : baselineProposal F)
    (hc : createProposal fl row tiers skus = .ret (some b, none)) :
    submissionOf fl tiers skus row =
      [.post b,
        .update (sentFlagRange (wrapInt ((Atoi b.ProposalID).1 + 1))) [[.str "Yes"]]] := by
  simp [submissionOf, hc]

/-- One pass over a row either goes on to the rows below, after the effects of
the row and with the counter increased for a candidate, or ends the call
otherwise than by a return without error, after a first part of the effects
of the row; which of the two does not depend on the rows below. -/
theorem sendNewProposals_step {F : Type} (fl : FloatOps F) (env : Env F)
    (tiers skus : List Row) (row : Row) (sent : Int) :
    (∀ rest, sendNewProposals fl env tiers skus (row :: rest) sent =
        (rowEffects fl tiers skus row ++
            (sendNewProposals fl env tiers skus rest
              (sent + if isCandidate row then 1 else 0)).1,
          (sendNewProposals fl env tiers skus rest
            (sent + if isCandidate row then 1 else 0)).2)) ∨
    (∃ out : M F (Int × Option GoErr),
      (∀ rest, sendNewProposals fl env tiers skus (row :: rest) sent = out) ∧
      (∀ n, out.2 ≠ .ret (n, none)) ∧
      ∃ more, rowEffects fl tiers skus row = out.1 ++ more) := by
  cases h4 : index row 4 with
  | panic =>
    exact Or.inr ⟨([], .panic),
      fun rest => sendNewProposals_short_row fl env tiers skus row rest sent h4, by simp,
      ⟨_, (List.nil_append _).symm⟩⟩
  | exit => exact absurd h4 (index_not_exit row 4)
  | ret c4 =>
    have hcand : isCandidate row = c4.eqStr "No" := by
      simp [isCandidate, index_ret row 4 c4 h4]
    cases hflag : c4.eqStr "No" with
    | false =>
      refine Or.inl fun rest => ?_
      rw [sendNewProposals_skip fl env tiers skus row rest sent c4 h4 hflag]
      simp [rowEffects, hcand, hflag]
    | true =>
      have hrow : rowEffects fl tiers skus row = submissionOf fl tiers skus row := by
        simp [rowEffects, hcand, hflag]
      cases hc : createProposal fl row tiers skus with
      | panic =>
        exact Or.inr ⟨([], .panic), fun rest => sendNewProposals_resolve_panic fl env tiers
          skus row rest sent c4 h4 hflag (Or.inl hc), by simp, ⟨_, (List.nil_append _).symm⟩⟩
      | exit =>
        exact Or.inr ⟨([], .exit), fun rest => by
          simp [sendNewProposals, liftRun, h4, hflag, hc, M.bind], by simp,
          ⟨_, (List.nil_append _).symm⟩⟩
      | ret r =>
        obtain ⟨b, err⟩ := r
        cases err with
        | some e =>
          exact Or.inr ⟨([], .ret (sent, some e)), fun rest => sendNewProposals_unresolved fl
            env tiers skus row rest sent c4 b e h4 hflag hc, by simp,
            ⟨_, (List.nil_append _).symm⟩⟩
        | none =>
          cases b with
          | none =>
            exact Or.inr ⟨([], .panic), fun rest => sendNewProposals_resolve_panic fl env
              tiers skus row rest sent c4 h4 hflag (Or.inr hc), by simp,
              ⟨_, (List.nil_append _).symm⟩⟩
          | some b =>
            have hsub := submissionOf_resolved fl tiers skus row b hc
            have hres := fun rest =>
              sendNewProposals_resolved fl env tiers skus row rest sent c4 b h4 hflag hc
            cases hpost : env.postProposals b with
            | error e =>
              exact Or.inr ⟨([.post b], .panic), fun rest => by
                rw [hres rest, sendProposal_failed env b e hpost, M.bind_panic], by simp,
                ⟨_, by rw [hrow, hsub]; rfl⟩⟩
            | ok resp =>
              rcases hid : Atoi b.ProposalID with ⟨p, perr⟩
              cases perr with
              | some e =>
                exact Or.inr ⟨([.post b], .ret (sent, some e)), fun rest => by
                  rw [hres rest, sendProposal_answered env b resp hpost, M.bind_ret,
                    markProposalSent_unparsed env b.ProposalID p e hid, M.bind_ret]
                  simp, by simp, ⟨_, by rw [hrow, hsub]; rfl⟩⟩
              | none =>
                have hsub2 : submissionOf fl tiers skus row = [.post b,
                    .update (sentFlagRange (wrapInt (p + 1))) [[.str "Yes"]]] := by
                  rw [hsub, hid]
                cases hu : env.valuesUpdate (sentFlagRange (wrapInt (p + 1)))
                    [[.str "Yes"]] with
                | some e =>
                  exact Or.inr ⟨([.post b,
                      .update (sentFlagRange (wrapInt (p + 1))) [[.str "Yes"]]], .exit),
                    fun rest => by
                      rw [hres rest, sendProposal_answered env b resp hpost, M.bind_ret,
                        markProposalSent_rejected env b.ProposalID p e hid hu, M.bind_exit]
                      simp, by simp, ⟨[], by rw [hrow, hsub2]; simp⟩⟩
                | none =>
                  refine Or.inl fun rest => ?_
                  rw [sendNewProposals_sent fl env tiers skus row rest sent c4 b resp p h4
                    hflag hc hpost hid hu, hrow, hsub2]
                  simp [hcand, hflag]

/-- When the loop over `before` returns without error, the loop over `before`
followed by more rows issues the same effects and then goes on over those
rows with the counter reached. -/
theorem sendNewProposals_append {F : Type} (fl : FloatOps F) (env : Env F)
    (tiers skus : List Row) (before rest : List Row) (sent n : Int)
    (tr : List (Effect F))
    (h : sendNewProposals fl env tiers skus before sent = (tr, .ret (n, none))) :
    sendNewProposals fl env tiers skus (before ++ rest) sent =
      (tr ++ (sendNewProposals fl env tiers skus rest n).1,
        (sendNewProposals fl env tiers skus rest n).2) := by
  induction before generalizing sent tr with
  | nil =>
    have h0 : sendNewProposals fl env tiers skus [] sent = ([], .ret (sent, none)) := by
      simp [sendNewProposals]
    rw [h0] at h
    have h1 : ([] : List (Effect F)) = tr := congrArg Prod.fst h
    have h2 : (Run.ret (sent, none) : Run (Int × Option GoErr)) = .ret (n, none) :=
      congrArg Prod.snd h
    have h3 : sent = n := by
      injection h2 with h2
      exact congrArg Prod.fst h2
    subst h1 h3
    simp
  | cons row more ih =>
    rcases sendNewProposals_step fl env tiers skus row sent with
      hstep | ⟨out, hout, hne, _⟩
    · rw [hstep more] at h
      have h1 : rowEffects fl tiers skus row ++ (sendNewProposals fl env tiers skus more
          (sent + if isCandidate row then 1 else 0)).1 = tr := congrArg Prod.fst h
      have h2 : (sendNewProposals fl env tiers skus more
          (sent + if isCandidate row then 1 else 0)).2 = .ret (n, none) :=
        congrArg Prod.snd h
      have := ih (sent + if isCandidate row then 1 else 0)
        (sendNewProposals fl env tiers skus more
          (sent + if isCandidate row then 1 else 0)).1 (Prod.ext rfl h2)
      rw [List.cons_append, hstep (more ++ rest), this, ← h1]
      simp
    · rw [hout more] at h
      exact absurd (congrArg Prod.snd h) (hne n)

theorem candidates_cons {F : Type} (fl : FloatOps F) (tiers skus : List Row) (row : Row)
    (rest : List Row) :
    ((row :: rest).filter isCandidate).flatMap (submissionOf fl tiers skus) =
      rowEffects fl tiers skus row ++
        (rest.filter isCandidate).flatMap (submissionOf fl tiers skus) := by
  cases hc : isCandidate row <;> simp [List.filter_cons, hc, rowEffects]

theorem candidates_length_cons (row : Row) (rest : List Row) :
    (((row :: rest).filter isCandidate).length : Int) =
      (if isCandidate row then 1 else 0) + ((rest.filter isCandidate).length : Int) := by
  cases hc : isCandidate row <;> simp [List.filter_cons, hc]
  omega

/-- In every run of the loop the effects issued are a first part of the
submissions of the candidate rows, in order. -/
theorem sendNewProposals_effects_initial {F : Type} (fl : FloatOps F) (env : Env F)
    (tiers skus : List Row) (rows : List Row) (sent : Int) :
    ∃ more, (rows.filter isCandidate).flatMap (submissionOf fl tiers skus) =
      (sendNewProposals fl env tiers skus rows sent).1 ++ more := by
  induction rows generalizing sent with
  | nil => exact ⟨[], by simp [sendNewProposals]⟩
  | cons row rest ih =>
    rw [candidates_cons]
    rcases sendNewProposals_step fl env tiers skus row sent with
      hstep | ⟨out, hout, _, more, hmore⟩
    · obtain ⟨more, hmore⟩ := ih (sent + if isCandidate row then 1 else 0)
      exact ⟨more, by rw [hstep rest, hmore, List.append_assoc]⟩
    · exact ⟨more ++ (rest.filter isCandidate).flatMap (submissionOf fl tiers skus), by
        rw [hout rest, hmore, List.append_assoc]⟩

/-- A run of the loop that returns without error has submitted every candidate
row, and counted each. -/
theorem sendNewProposals_of_success {F : Type} (fl : FloatOps F) (env : Env F)
    (tiers skus : List Row) (rows : List Row) (sent n : Int) (tr : List (Effect F))
    (h : sendNewProposals fl env tiers skus rows sent = (tr, .ret (n, none))) :
    tr = (rows.filter isCandidate).flatMap (submissionOf fl tiers skus) ∧
      n = sent + ((rows.filter isCandidate).length : Int) := by
  induction rows generalizing sent tr with
  | nil =>
    have h0 : sendNewProposals fl env tiers skus [] sent = ([], .ret (sent, none)) := by
      simp [sendNewProposals]
    rw [h0] at h
    have h1 : ([] : List (Effect F)) = tr := congrArg Prod.fst h
    have h2 : (Run.ret (sent, none) : Run (Int × Option GoErr)) = .ret (n, none) :=
      congrArg Prod.snd h
    have h3 : sent = n := by
      injection h2 with h2
      exact congrArg Prod.fst h2
    subst h1 h3
    simp
  | cons row rest ih =>
    rcases sendNewProposals_step fl env tiers skus row sent with
      hstep | ⟨out, hout, hne, _⟩
    · rw [hstep rest] at h
      have h1 : rowEffects fl tiers skus row ++ (sendNewProposals fl env tiers skus rest
          (sent + if isCandidate row then 1 else 0)).1 = tr := congrArg Prod.fst h
      have h2 : (sendNewProposals fl env tiers skus rest
          (sent + if isCandidate row then 1 else 0)).2 = .ret (n, none) :=
        congrArg Prod.snd h
      obtain ⟨h3, h4⟩ := ih (sent + if isCandidate row then 1 else 0)
        (sendNewProposals fl env tiers skus rest
          (sent + if isCandidate row then 1 else 0)).1 (Prod.ext rfl h2)
      refine ⟨by rw [← h1, h3, candidates_cons], ?_⟩
      rw [h4, candidates_length_cons]
      omega
    · rw [hout rest] at h
      exact absurd (congrArg Prod.snd h) (hne n)

/-! ## The inbound reconciler appends the suffix after the rows it read -/

theorem appendOrderItem_ok {F : Type} (fl : FloatOps F) (env : Env F) (rfpId : String)
    (o : orderItem F) (h : ∀ r row, env.valuesAppend r row = none) :
    appendOrderItem fl env rfpId o =
      ([.append orderItemsAnchor (orderItemRow fl rfpId o)], .ret none) := by
  simp [appendOrderItem, emit, h, M.bind, orderItemRow]

theorem appendRfp_ok {F : Type} (env : Env F) (rfp : rfpResponse F)
    (h : ∀ r row, env.valuesAppend r row = none) :
    appendRfp env rfp = ([.append rfpsRange (rfpRow rfp)], .ret none) := by
  simp [appendRfp, emit, h, M.bind, rfpRow]

theorem insertItems_ok {F : Type} (fl : FloatOps F) (env : Env F) (rfpId : String)
    (items : List (orderItem F)) (h : ∀ r row, env.valuesAppend r row = none) :
    insertItems fl env rfpId items =
      (items.map (fun o => Effect.append orderItemsAnchor (orderItemRow fl rfpId o)),
        .ret none) := by
  induction items with
  | nil => simp [insertItems]
  | cons o rest ih =>
    simp [insertItems, appendOrderItem_ok fl env rfpId o h, M.bind, ih]

theorem insertRFP_ok {F : Type} (fl : FloatOps F) (env : Env F) (bRFP : baselineRFP)
    (rfp : rfpResponse F) (h : ∀ r row, env.valuesAppend r row = none)
    (hd : env.getRFP bRFP.ID = .ok rfp) :
    insertRFP fl env bRFP = (rfpAppends fl bRFP.ID rfp, .ret ((rfp.Items.length : Int), none)) := by
  simp [insertRFP, hd, insertItems_ok fl env bRFP.ID rfp.Items h, appendRfp_ok env rfp h,
    M.bind, rfpAppends]

theorem insertNewRfps_ok {F : Type} (fl : FloatOps F) (env : Env F)
    (detail : String → rfpResponse F) (increase : Int) (newRfps : List baselineRFP)
    (acc : Int) (h : ∀ r row, env.valuesAppend r row = none)
    (hd : ∀ rfp ∈ newRfps, env.getRFP rfp.ID = .ok (detail rfp.ID)) :
    insertNewRfps fl env increase newRfps acc =
      (newRfps.flatMap (fun rfp => rfpAppends fl rfp.ID (detail rfp.ID)),
        .ret (acc + ((newRfps.map fun rfp => ((detail rfp.ID).Items.length : Int)).sum),
          increase, none)) := by
  induction newRfps generalizing acc with
  | nil => simp [insertNewRfps]
  | cons rfp rest ih =>
    have hrest : ∀ r ∈ rest, env.getRFP r.ID = .ok (detail r.ID) :=
      fun r hr => hd r (List.mem_cons_of_mem _ hr)
    have hthis := insertRFP_ok fl env rfp (detail rfp.ID) h (hd rfp (List.mem_cons_self _ _))
    have harith : acc + ((detail rfp.ID).Items.length : Int) +
        (rest.map fun r => ((detail r.ID).Items.length : Int)).sum =
        acc + (((detail rfp.ID).Items.length : Int) +
          (rest.map fun r => ((detail r.ID).Items.length : Int)).sum) := by omega
    simp [insertNewRfps, hthis, M.bind, ih _ hrest, harith]

/-- What `updateIncommingRFPs` does when its calls succeed: with `values` the
rows that the read of `RFPS!A2` returned, it appends, for each RFP of the
suffix `rfps[len(values):]` in order, one row per order item and then the
summary row, and returns the number of order-item rows and the number of
summary rows appended; nothing is appended and `(0, 0)` returned when the
remote list is not longer than `values`. -/
theorem updateIncommingRFPs_appends_read_suffix {F : Type} (fl : FloatOps F)
    (env : Env F) (detail : String → rfpResponse F) (values : List Row)
    (rfps : List baselineRFP)
    (hv : env.valuesGet rfpsRange = .ok values) (hr : env.getRFPs = .ok rfps)
    (h : ∀ r row, env.valuesAppend r row = none)
    (hd : ∀ rfp ∈ rfps.drop values.length, env.getRFP rfp.ID = .ok (detail rfp.ID)) :
    updateIncommingRFPs fl env =
      ((rfps.drop values.length).flatMap (fun rfp => rfpAppends fl rfp.ID (detail rfp.ID)),
        .ret (((rfps.drop values.length).map
            fun rfp => ((detail rfp.ID).Items.length : Int)).sum,
          ((rfps.drop values.length).length : Int), none)) := by
  by_cases hgt : (rfps.length : Int) > (values.length : Int)
  · have hlen : ((rfps.drop values.length).length : Int) =
        (rfps.length : Int) - (values.length : Int) := by
      rw [List.length_drop]
      omega
    simp only [updateIncommingRFPs, hv, hr, if_pos hgt]
    rw [insertNewRfps_ok fl env detail _ _ 0 h hd, hlen]
    simp
  · have hle : rfps.length ≤ values.length := by omega
    simp [updateIncommingRFPs, hv, hr, hgt, List.drop_eq_nil_of_le hle]

/-- A read of a single-cell range returns at most one row, whatever the sheet
holds. -/
theorem Store.values_single_cell (st : Store) (r : A1Range) (h : r.last = none) :
    (st.values r).length ≤ 1 := by
  have hdt : ∀ {α : Type} (p : α → Bool) (l : List α), (dropTrailing p l).length ≤ l.length := by
    intro α p l
    unfold dropTrailing
    rw [List.length_reverse]
    exact (List.dropWhile_sublist p).length_le.trans
      (by rw [List.length_reverse])
  unfold Store.values
  simp only [h]
  refine (hdt _ _).trans ?_
  rw [List.length_map]
  exact (List.length_take_le _ _)

/-! ## Where the cells of a read sit in the sheet -/

theorem dropTrailing_getElem {α : Type} (p : α → Bool) (l : List α) (i : Nat) (x : α)
    (h : (dropTrailing p l)[i]? = some x) : l[i]? = some x := by
  have hl : l = dropTrailing p l ++ (l.reverse.takeWhile p).reverse := by
    unfold dropTrailing
    rw [← List.reverse_append, List.takeWhile_append_dropWhile, List.reverse_reverse]
  rw [hl]
  have hlt : i < (dropTrailing p l).length := by
    by_contra hge
    rw [List.getElem?_eq_none (by omega)] at h
    simp at h
  rw [List.getElem?_append_left hlt]
  exact h

/-- Cell `j` of row `i` of a read of an open-ended range is the text of the
sheet cell at `position i j`. -/
theorem Store.values_position (st : Store) (r : A1Range) (c : Nat) (hr : 1 ≤ r.row)
    (hlast : r.last = some (c, none)) (i j : Nat) (row : Row) (cell : Cell)
    (h1 : (st.values r)[i]? = some row) (h2 : row[j]? = some cell) :
    ∃ t, cell = .str t ∧ st.cell r.sheet (r.position i j) = some t := by
  unfold Store.values at h1
  simp only [hlast] at h1
  have h3 := dropTrailing_getElem _ _ _ _ h1
  rw [List.getElem?_map] at h3
  obtain ⟨cells, hg, hrow⟩ := Option.map_eq_some'.mp h3
  rw [← hrow, List.getElem?_map] at h2
  obtain ⟨t, hc, hcell⟩ := Option.map_eq_some'.mp h2
  have h4 := dropTrailing_getElem _ _ _ _ hc
  have h5 : (cells.drop r.col)[j]? = some t := by
    rw [List.getElem?_take] at h4
    split at h4
    · exact h4
    · exact absurd h4 (by simp)
  rw [List.getElem?_drop] at h5 hg
  refine ⟨t, hcell.symm, ?_⟩
  have hidx : (r.row + (i : Int) - 1).toNat = (r.row - 1).toNat + i := by omega
  have hpos : (1 : Int) ≤ r.row + (i : Int) := by omega
  unfold Store.cell A1Range.position
  simp only [hpos, if_true, hidx, hg, Option.some_bind, h5]

/-! ## Which row a submission marks -/

theorem createProposal_id {F : Type} (fl : FloatOps F) (row : Row) (tiers skus : List Row)
    (b : baselineProposal F) (h : createProposal fl row tiers skus = .ret (some b, none)) :
    b.ProposalID = cellText row 0 := by
  match row with
  | [] => simp [createProposal, index] at h
  | [_] => simp [createProposal, index] at h
  | [_, _] => simp [createProposal, index] at h
  | [_, _, _] => simp [createProposal, index] at h
  | c0 :: c1 :: c2 :: c3 :: more =>
    cases hl : createProposalLoop fl tiers skus (stringsSplitComma c3.sprint) [] with
    | panic => simp [createProposal, index, hl] at h
    | exit => simp [createProposal, index, hl] at h
    | ret r =>
      obtain ⟨ps, err⟩ := r
      cases err with
      | some e => simp [createProposal, index, hl] at h
      | none =>
        simp only [createProposal, index, List.getElem?_cons_zero, List.getElem?_cons_succ,
          Run.ret_bind, hl, Run.pure_is_ret, Run.ret.injEq, Prod.mk.injEq, Option.some.injEq,
          and_true] at h
        rw [← h]
        simp [cellText]

theorem mem_submissionOf {F : Type} (fl : FloatOps F) (tiers skus : List Row) (row : Row)
    (e : Effect F) (h : e ∈ submissionOf fl tiers skus row) :
    ∃ b, createProposal fl row tiers skus = .ret (some b, none) ∧
      (e = .post b ∨
        e = .update (sentFlagRange (wrapInt ((Atoi (cellText row 0)).1 + 1)))
          [[.str "Yes"]]) := by
  unfold submissionOf at h
  split at h
  · next b hc =>
    have hid := createProposal_id fl row tiers skus b hc
    refine ⟨b, hc, ?_⟩
    rw [hid] at h
    simpa using h
  · simp at h

/-- With sequential ids the only flags written are those of submitted rows:
an effect of the submission of the row at index `i` that writes into the
flag of the row at index `j` has `j = i`. -/
theorem submissionOf_marks_own_row {F : Type} (fl : FloatOps F) (tiers skus : List Row)
    (row : Row) (i j : Nat) (e : Effect F)
    (hid : Atoi (cellText row 0) = ((i : Int) + 1, none)) (hmax : (i : Int) + 1 < maxInt)
    (he : e ∈ submissionOf fl tiers skus row) (hj : marksRow [e] j = true) : j = i := by
  obtain ⟨b, _, h | h⟩ := mem_submissionOf fl tiers skus row e he
  · rw [h] at hj
    simp [marksRow] at hj
  · have hwrap : wrapInt ((i : Int) + 1 + 1) = (i : Int) + 2 := by
      unfold wrapInt
      unfold maxInt at hmax
      omega
    rw [h, hid, hwrap] at hj
    simp only [marksRow, List.any_cons, List.any_nil, Bool.or_false, Bool.and_eq_true,
      decide_eq_true_eq, A1Range.covers, sentFlagRange, proposalsRange,
      A1Range.position] at hj
    omega

/-- The same without a bound on the index: at the largest `int` the row number
wraps around to a row that no local row sits in. -/
theorem submissionOf_marks_row_of_id {F : Type} (fl : FloatOps F) (tiers skus : List Row)
    (row : Row) (i j : Nat) (e : Effect F)
    (hid : Atoi (cellText row 0) = ((i : Int) + 1, none))
    (he : e ∈ submissionOf fl tiers skus row) (hj : marksRow [e] j = true) : j = i := by
  have hrange := (Atoi_range (cellText row 0) _ hid).2
  obtain ⟨b, _, h | h⟩ := mem_submissionOf fl tiers skus row e he
  · rw [h] at hj
    simp [marksRow] at hj
  · rw [h, hid] at hj
    simp only [marksRow, List.any_cons, List.any_nil, Bool.or_false, Bool.and_eq_true,
      decide_eq_true_eq, A1Range.covers, sentFlagRange, proposalsRange,
      A1Range.position, wrapInt] at hj
    unfold maxInt at hrange
    omega

theorem getSKU_ret_scan (skuID buyerId : String) (skus : List Row)
    (r : baselineSku × Option GoErr) (h : getSKU skuID skus buyerId = .ret r) :
    scanOk skus skuID 2 = true := by
  induction skus with
  | nil => simp [scanOk]
  | cons row rest ih =>
    match row with
    | [] => simp [getSKU, index] at h
    | a :: cs =>
      by_cases hab : a.eqStr skuID = true
      · match cs with
        | [] => simp [getSKU, index, hab] at h
        | b :: tl => simp [scanOk, hab]
      · simp only [getSKU, index, List.getElem?_cons_zero, Run.ret_bind, hab] at h
        simpa [scanOk, hab] using ih h

theorem priceScaleOfRow_ret_scan {F : Type} (fl : FloatOps F) (trow : Row)
    (skus : List Row) (r : baselinePriceScale F × Option GoErr)
    (h : priceScaleOfRow fl trow skus = .ret r) :
    8 ≤ trow.length ∧ scanOk skus (cellText trow 1) 2 = true := by
  cases h1 : index trow 1 with
  | panic => simp [priceScaleOfRow, h1] at h
  | exit => exact absurd h1 (index_not_exit trow 1)
  | ret c1 =>
    cases h7 : index trow 7 with
    | panic => simp [priceScaleOfRow, h1, h7] at h
    | exit => exact absurd h7 (index_not_exit trow 7)
    | ret c7 =>
      have hlen : 8 ≤ trow.length := by
        have := index_ret trow 7 c7 h7
        by_contra hlt
        rw [List.getElem?_eq_none (by omega)] at this
        simp at this
      refine ⟨hlen, ?_⟩
      have hc1 : cellText trow 1 = c1.sprint := by
        simp [cellText, index_ret trow 1 c1 h1]
      cases hs : getSKU c1.sprint skus c7.sprint with
      | panic => simp [priceScaleOfRow, h1, h7, hs] at h
      | exit => simp [priceScaleOfRow, h1, h7, hs] at h
      | ret s =>
        rw [hc1]
        exact getSKU_ret_scan c1.sprint c7.sprint skus s hs

/-- A lookup returns, with a tier or with an error, exactly when it stays in
range. -/
theorem getPriceScale_ret_safe {F : Type} (fl : FloatOps F) (id : String)
    (tiers skus : List Row) (r : baselinePriceScale F × Option GoErr)
    (h : getPriceScale fl id tiers skus = .ret r) :
    lookupSafe tiers skus id = true := by
  induction tiers with
  | nil => simp [lookupSafe, scanOk]
  | cons row rest ih =>
    match row with
    | [] => simp [getPriceScale, index] at h
    | a :: tl =>
      by_cases hab : a.eqStr id = true
      · simp only [getPriceScale, index, List.getElem?_cons_zero, Run.ret_bind, hab,
          if_true] at h
        obtain ⟨h8, hs⟩ := priceScaleOfRow_ret_scan fl (a :: tl) skus r h
        simp only [lookupSafe, scanOk, hab, if_true, List.find?, firstColIs, Bool.and_eq_true,
          decide_eq_true_eq]
        exact ⟨h8, hs⟩
      · simp only [getPriceScale, index, List.getElem?_cons_zero, Run.ret_bind, hab] at h
        have := ih h
        simpa [lookupSafe, scanOk, hab, List.find?, firstColIs] using this

theorem resolveTier_ok_found {F : Type} (fl : FloatOps F) (tiers skus : List Row)
    (id : String) (h : (resolveTier fl tiers skus id).2 = none) :
    ∃ trow srow, tiers.find? (firstColIs id) = some trow ∧
      skus.find? (firstColIs (cellText trow 1)) = some srow ∧ NumericOk fl trow := by
  unfold resolveTier at h
  cases ht : tiers.find? (firstColIs id) with
  | none => simp [ht] at h
  | some trow =>
    cases hs : skus.find? (firstColIs (cellText trow 1)) with
    | none => simp [ht, hs] at h
    | some srow =>
      refine ⟨trow, srow, rfl, hs, ?_⟩
      by_contra hbad
      obtain ⟨e, he⟩ := tierOrParseError_bad fl trow srow hbad
      simp [ht, hs, he] at h

theorem createProposalLoop_ok_lookups {F : Type} (fl : FloatOps F) (tiers skus : List Row)
    (ids : List String) (done ps : List (baselinePriceScale F))
    (h : createProposalLoop fl tiers skus ids done = .ret (ps, none)) :
    ∀ id ∈ ids, ∃ p, getPriceScale fl id tiers skus = .ret (p, none) := by
  induction ids generalizing done with
  | nil => intro id hid; simp at hid
  | cons k ks ih =>
    cases hk : getPriceScale fl k tiers skus with
    | panic => simp [createProposalLoop, hk] at h
    | exit => simp [createProposalLoop, hk] at h
    | ret r =>
      obtain ⟨p, err⟩ := r
      cases err with
      | some e => simp [createProposalLoop, hk] at h
      | none =>
        simp only [createProposalLoop, hk, Run.ret_bind] at h
        intro id hid
        rcases List.mem_cons.mp hid with h1 | h1
        · exact ⟨p, by rw [h1, hk]⟩
        · exact ih (done ++ [p]) h id h1

theorem createProposal_ok_loop {F : Type} (fl : FloatOps F) (c0 c1 c2 c3 : Cell)
    (more : Row) (tiers skus : List Row) (b : baselineProposal F)
    (h : createProposal fl (c0 :: c1 :: c2 :: c3 :: more) tiers skus = .ret (some b, none)) :
    ∃ ps, createProposalLoop fl tiers skus (stringsSplitComma c3.sprint) [] =
      .ret (ps, none) := by
  cases hl : createProposalLoop fl tiers skus (stringsSplitComma c3.sprint) [] with
  | panic => simp [createProposal, index, hl] at h
  | exit => simp [createProposal, index, hl] at h
  | ret r =>
    obtain ⟨ps, err⟩ := r
    cases err with
    | some e => simp [createProposal, index, hl] at h
    | none => exact ⟨ps, rfl⟩

theorem exists_first_failing {α : Type} (p : α → Prop) (l : List α) (x : α)
    (hx : x ∈ l) (hp : p x) :
    ∃ pre y post, l = pre ++ y :: post ∧ (∀ k ∈ pre, ¬ p k) ∧ p y := by
  induction l with
  | nil => simp at hx
  | cons a as ih =>
    by_cases ha : p a
    · exact ⟨[], a, as, rfl, by simp, ha⟩
    · have hx2 : x ∈ as := by
        rcases List.mem_cons.mp hx with h | h
        · exact absurd (h ▸ hp) ha
        · exact h
      obtain ⟨pre, y, post, h1, h2, h3⟩ := ih hx2
      refine ⟨a :: pre, y, post, by simp [h1], ?_, h3⟩
      intro k hk
      rcases List.mem_cons.mp hk with h | h
      · exact h ▸ ha
      · exact h2 k h

/-! ## The claims about the join resolver -/

/-- C5, as amended: for a proposal row whose tier list is `id_1,...,id_n`, each
id resolving, that is: its lookup stays in range (no empty row above the
first tier row with that id, which has at least 8 cells, and the same for the
SKU rows and the first row with the referred SKU, of at least 2 cells), the
tier row and the SKU row are found, and the numeric cells of the tier row are
well-formed, `createProposal` returns a payload with exactly `n` price tiers,
tier `j` built from the first tier row whose first column is `id_j` and from
the first SKU row whose first column is that row's SKU reference; rows added
below in either range (duplicates included) do not change the payload.
Conversely a call that returns a payload has every id resolve in that
sense. -/
theorem createProposal_joins_first_match {F : Type} (fl : FloatOps F)
    (c0 c1 c2 c3 : Cell) (more : Row) (tiers skus : List Row)
    (hres : ∀ id ∈ stringsSplitComma c3.sprint, ∃ trow srow,
      tiers.find? (firstColIs id) = some trow ∧
      skus.find? (firstColIs (cellText trow 1)) = some srow ∧
      lookupSafe tiers skus id = true ∧ NumericOk fl trow) :
    (∃ tiersOut : List (baselinePriceScale F),
      (∀ lowerTiers lowerSkus : List Row,
        createProposal fl (c0 :: c1 :: c2 :: c3 :: more) (tiers ++ lowerTiers)
            (skus ++ lowerSkus) =
          .ret (some ⟨c0.sprint, c1.sprint, c2.sprint, tiersOut⟩, none)) ∧
      tiersOut.length = (stringsSplitComma c3.sprint).length ∧
      ∀ (j : Nat) (id : String), (stringsSplitComma c3.sprint)[j]? = some id →
        ∃ trow srow, tiers.find? (firstColIs id) = some trow ∧
          skus.find? (firstColIs (cellText trow 1)) = some srow ∧
          tiersOut[j]? = some (tierOfRows fl trow srow)) ∧
    (∀ (tiers2 skus2 : List Row) (b : baselineProposal F),
      createProposal fl (c0 :: c1 :: c2 :: c3 :: more) tiers2 skus2 = .ret (some b, none) →
      ∀ id ∈ stringsSplitComma c3.sprint, ∃ trow srow,
        tiers2.find? (firstColIs id) = some trow ∧
        skus2.find? (firstColIs (cellText trow 1)) = some srow ∧
        lookupSafe tiers2 skus2 id = true ∧ NumericOk fl trow) := by
  have hval : ∀ id ∈ stringsSplitComma c3.sprint, ∃ trow srow,
      tiers.find? (firstColIs id) = some trow ∧
      skus.find? (firstColIs (cellText trow 1)) = some srow ∧
      resolveTier fl tiers skus id = (tierOfRows fl trow srow, none) := by
    intro id hid
    obtain ⟨trow, srow, ht, hs, _, hn⟩ := hres id hid
    exact ⟨trow, srow, ht, hs, by
      rw [resolveTier_of_found fl tiers skus id trow srow ht hs,
        tierOrParseError_ok fl trow srow hn]⟩
  refine ⟨⟨(stringsSplitComma c3.sprint).map fun id => (resolveTier fl tiers skus id).1,
    ?_, by simp, ?_⟩, ?_⟩
  · intro lowerTiers lowerSkus
    have hg : ∀ id ∈ stringsSplitComma c3.sprint,
        getPriceScale fl id (tiers ++ lowerTiers) (skus ++ lowerSkus) =
          .ret (resolveTier fl tiers skus id) := by
      intro id hid
      obtain ⟨trow, srow, ht, hs, hsafe, _⟩ := hres id hid
      exact getPriceScale_safe_lower_rows fl id tiers skus lowerTiers lowerSkus trow srow
        hsafe ht hs
    obtain ⟨ps, err, hrun, hok, _⟩ := createProposalLoop_of_ret fl (tiers ++ lowerTiers)
      (skus ++ lowerSkus) (resolveTier fl tiers skus) (stringsSplitComma c3.sprint) hg []
    obtain ⟨h1, h2⟩ := hok (fun id hid => by
      obtain ⟨_, _, _, _, h⟩ := hval id hid
      rw [h])
    subst h1
    rw [createProposal_of_loop_ok fl c0 c1 c2 c3 more _ _ ps hrun, h2]
    simp
  · intro j id hj
    have hid : id ∈ stringsSplitComma c3.sprint := List.getElem?_mem hj
    obtain ⟨trow, srow, ht, hs, h⟩ := hval id hid
    exact ⟨trow, srow, ht, hs, by simp [List.getElem?_map, hj, h]⟩
  · intro tiers2 skus2 b hb id hid
    obtain ⟨ps, hloop⟩ := createProposal_ok_loop fl c0 c1 c2 c3 more tiers2 skus2 b hb
    obtain ⟨p, hp⟩ := createProposalLoop_ok_lookups fl tiers2 skus2 _ [] ps hloop id hid
    have hsafe := getPriceScale_ret_safe fl id tiers2 skus2 _ hp
    have hres2 := getPriceScale_of_safe fl id tiers2 skus2 hsafe
    rw [hp] at hres2
    have hnone : (resolveTier fl tiers2 skus2 id).2 = none := by
      injection hres2 with hres2
      rw [← hres2]
    obtain ⟨trow, srow, ht, hs, hn⟩ := resolveTier_ok_found fl tiers2 skus2 id hnone
    exact ⟨trow, srow, ht, hs, hsafe, hn⟩

set_option maxRecDepth 100000 in
/-- C5, as stated, fails: the tier row `T1` has a blank buyer cell, so the read
returns it with seven cells.  The tier row and the SKU row `S1` are found and
the numeric cells parse, yet `getPriceScale` indexes the eighth cell and
`createProposal` panics; so does `sendOutgoingProposals` on the sheet. -/
theorem createProposal_panics_on_blank_buyer :
    (blankBuyerStore "1" [sampleProposalCells "1" "T1" "No"]).values tiersRange =
      [sevenCellTier "1"] ∧
    List.find? (firstColIs "T1") [sevenCellTier "1"] = some (sevenCellTier "1") ∧
    List.find? (firstColIs (cellText (sevenCellTier "1") 1)) sampleSkus =
      some [.str "S1", .str "Widget"] ∧
    NumericOk sampleFloat (sevenCellTier "1") ∧
    createProposal sampleFloat (sampleProposalRow "1" "T1" "No") [sevenCellTier "1"]
      sampleSkus = .panic ∧
    sendOutgoingProposals sampleFloat
        ((blankBuyerStore "1" [sampleProposalCells "1" "T1" "No"]).env [] sampleDetail []
          statusOk) = ([], .panic) := by
  decide

/-- C9, as amended: when a referenced tier finds its tier row and its SKU row
by a lookup that stays in range (no empty row above either, the tier row of
at least 8 cells, the SKU row of at least 2) but the quantity-from,
quantity-to or price cell of that tier row is malformed, and the lookups of
the ids listed before it stay in range, `createProposal` returns an error and
a `nil` payload, whatever the ids listed after it. -/
theorem createProposal_malformed_numeric {F : Type} (fl : FloatOps F)
    (c0 c1 c2 c3 : Cell) (more : Row) (tiers skus : List Row)
    (pre post : List String) (id : String) (trow srow : Row)
    (hids : stringsSplitComma c3.sprint = pre ++ id :: post)
    (hpre : ∀ k ∈ pre, lookupSafe tiers skus k = true)
    (hsafe : lookupSafe tiers skus id = true)
    (ht : tiers.find? (firstColIs id) = some trow)
    (hs : skus.find? (firstColIs (cellText trow 1)) = some srow)
    (hbad : ¬ NumericOk fl trow) :
    ∃ e, createProposal fl (c0 :: c1 :: c2 :: c3 :: more) tiers skus =
      .ret (none, some e) := by
  have hfail : (resolveTier fl tiers skus id).2 ≠ none := by
    rw [resolveTier_of_found fl tiers skus id trow srow ht hs]
    obtain ⟨e, he⟩ := tierOrParseError_bad fl trow srow hbad
    simp [he]
  obtain ⟨pre2, y, post2, hsplit, hpre2, hy⟩ :=
    exists_first_failing (fun k => (resolveTier fl tiers skus k).2 ≠ none) (pre ++ [id]) id
      (by simp) hfail
  obtain ⟨e, he⟩ := Option.ne_none_iff_exists'.mp hy
  have hall : ∀ k ∈ pre ++ [id], lookupSafe tiers skus k = true := by
    intro k hk
    rcases List.mem_append.mp hk with h | h
    · exact hpre k h
    · rw [List.mem_singleton.mp h]
      exact hsafe
  have hmem2 : ∀ k ∈ pre2, k ∈ pre ++ [id] := fun k hk => by
    rw [hsplit]
    exact List.mem_append_left _ hk
  have hy2 : y ∈ pre ++ [id] := by
    rw [hsplit]
    simp
  have hids2 : stringsSplitComma c3.sprint = pre2 ++ y :: (post2 ++ post) := by
    rw [hids]
    have : pre ++ id :: post = (pre ++ [id]) ++ post := by simp
    rw [this, hsplit]
    simp
  obtain ⟨ps, hloop⟩ := createProposalLoop_first_failure fl tiers skus
    (resolveTier fl tiers skus) pre2 (post2 ++ post) y e
    (fun k hk => ⟨getPriceScale_of_safe fl k tiers skus (hall k (hmem2 k hk)),
      by simpa using hpre2 k hk⟩)
    (getPriceScale_of_safe fl y tiers skus (hall y hy2)) he []
  rw [← hids2] at hloop
  exact ⟨e, createProposal_of_loop_err fl c0 c1 c2 c3 more tiers skus ps e hloop⟩

set_option maxRecDepth 100000 in
/-- C9, as stated, fails: the tier row `T1` has the quantity-from `abc` and a
blank buyer cell, so the read returns it with seven cells.  The tier row and
the SKU row are found and the quantity is malformed, yet `getPriceScale`
indexes the eighth cell before any number is parsed: `createProposal` panics
and returns no error; so does `sendOutgoingProposals` on the sheet. -/
theorem createProposal_panics_before_parsing :
    (blankBuyerStore "abc" [sampleProposalCells "1" "T1" "No"]).values tiersRange =
      [sevenCellTier "abc"] ∧
    List.find? (firstColIs "T1") [sevenCellTier "abc"] = some (sevenCellTier "abc") ∧
    List.find? (firstColIs (cellText (sevenCellTier "abc") 1)) sampleSkus =
      some [.str "S1", .str "Widget"] ∧
    ¬ NumericOk sampleFloat (sevenCellTier "abc") ∧
    createProposal sampleFloat (sampleProposalRow "1" "T1" "No") [sevenCellTier "abc"]
      sampleSkus = .panic ∧
    sendOutgoingProposals sampleFloat
        ((blankBuyerStore "abc" [sampleProposalCells "1" "T1" "No"]).env [] sampleDetail []
          statusOk) = ([], .panic) := by
  decide

/-- C10: when every tier row has at least 8 cells, every SKU row at least 2 and
the proposal row at least 5, the candidate test `row[4]` and `createProposal`
index no row out of range: `createProposal` returns a payload or an error.
Without these widths an out-of-range index is reached: on an empty proposal
row, on an empty tier row, and on a matching tier row with fewer than 8
cells. -/
theorem createProposal_index_safety {F : Type} (fl : FloatOps F) :
    (∀ (row : Row) (tiers skus : List Row), WideRows tiers skus → 5 ≤ row.length →
      (∃ c, index row 4 = .ret c) ∧
      ((∃ b, createProposal fl row tiers skus = .ret (some b, none)) ∨
        (∃ e, createProposal fl row tiers skus = .ret (none, some e)))) ∧
    (index ([] : Row) 4 = .panic ∧ createProposal fl [] sampleTiers sampleSkus = .panic) ∧
    createProposal fl (sampleProposalRow "1" "T1" "No") [[]] sampleSkus = .panic ∧
    createProposal fl (sampleProposalRow "1" "T1" "No") [[.str "T1", .str "S1", .str "1"]]
      sampleSkus = .panic := by
  have hsplit : stringsSplitComma (Cell.str "T1").sprint = ["T1"] := by decide
  refine ⟨?_, ⟨by simp [index], by simp [createProposal, index]⟩, ?_, ?_⟩
  · intro row tiers skus hW h5
    match row, h5 with
    | c0 :: c1 :: c2 :: c3 :: c4 :: more, _ =>
      refine ⟨⟨c4, by simp [index]⟩, ?_⟩
      obtain ⟨ps, err, hrun, _, _⟩ := createProposalLoop_of_ret fl tiers skus
        (resolveTier fl tiers skus) (stringsSplitComma c3.sprint)
        (fun k _ => getPriceScale_eq_resolveTier fl k tiers skus hW) []
      cases err with
      | none =>
        exact Or.inl ⟨_, createProposal_of_loop_ok fl c0 c1 c2 c3 (c4 :: more) tiers skus ps hrun⟩
      | some e =>
        exact Or.inr ⟨e,
          createProposal_of_loop_err fl c0 c1 c2 c3 (c4 :: more) tiers skus ps e hrun⟩
  · simp [createProposal, sampleProposalRow, index, hsplit, createProposalLoop,
      getPriceScale]
  · simp [createProposal, sampleProposalRow, index, hsplit, createProposalLoop,
      getPriceScale, Cell.eqStr, priceScaleOfRow]

/-! ## The outbound loop on rows that all go through -/

theorem index_four_of_wide (row : Row) (h : 5 ≤ row.length) :
    ∃ c4, index row 4 = .ret c4 ∧ isCandidate row = c4.eqStr "No" := by
  match row, h with
  | c0 :: c1 :: c2 :: c3 :: c4 :: more, _ => exact ⟨c4, by simp [index], by simp [isCandidate]⟩

theorem submissionOf_of_resolved {F : Type} (fl : FloatOps F) (tiers skus : List Row)
    (row : Row) (b : baselineProposal F) (p : Int)
    (hc : createProposal fl row tiers skus = .ret (some b, none))
    (hid : Atoi b.ProposalID = (p, none)) :
    submissionOf fl tiers skus row =
      [.post b, .update (sentFlagRange (wrapInt (p + 1))) [[.str "Yes"]]] := by
  simp [submissionOf, hc, hid]

theorem sendNewProposals_all_submit {F : Type} (fl : FloatOps F) (env : Env F)
    (tiers skus : List Row) (rows : List Row) (sent : Int)
    (hwide : ∀ row ∈ rows, 5 ≤ row.length)
    (hsub : ∀ row ∈ rows.filter isCandidate, Submits fl env tiers skus row) :
    sendNewProposals fl env tiers skus rows sent =
      ((rows.filter isCandidate).flatMap (submissionOf fl tiers skus),
        .ret (sent + ((rows.filter isCandidate).length : Int), none)) := by
  induction rows generalizing sent with
  | nil => simp [sendNewProposals]
  | cons row rest ih =>
    have hrest : ∀ r ∈ rest, 5 ≤ r.length := fun r hr => hwide r (List.mem_cons_of_mem _ hr)
    obtain ⟨c4, h4, hcand⟩ := index_four_of_wide row (hwide row (List.mem_cons_self _ _))
    cases hflag : c4.eqStr "No" with
    | false =>
      have hc : isCandidate row = false := by rw [hcand, hflag]
      have hsub2 : ∀ r ∈ rest.filter isCandidate, Submits fl env tiers skus r := by
        intro r hr
        apply hsub
        simpa [List.filter_cons, hc] using hr
      rw [sendNewProposals_skip fl env tiers skus row rest sent c4 h4 hflag,
        ih sent hrest hsub2]
      simp [List.filter_cons, hc]
    | true =>
      have hc : isCandidate row = true := by rw [hcand, hflag]
      have hsub2 : ∀ r ∈ rest.filter isCandidate, Submits fl env tiers skus r := by
        intro r hr
        apply hsub
        simp [List.filter_cons, hc, hr]
      obtain ⟨b, resp, p, hres, hpost, hid, hu⟩ :=
        hsub row (by simp [List.filter_cons, hc])
      rw [sendNewProposals_sent fl env tiers skus row rest sent c4 b resp p h4 hflag hres
        hpost hid hu, ih (sent + 1) hrest hsub2]
      simp [List.filter_cons, hc, submissionOf_of_resolved fl tiers skus row b p hres hid]
      have harith : sent + 1 + ((rest.filter isCandidate).length : Int) =
          sent + (((rest.filter isCandidate).length : Int) + 1) := by omega
      rw [harith]

/-- The value of `sendOutgoingProposals` once its four reads have succeeded. -/
theorem sendOutgoingProposals_of_reads {F : Type} (fl : FloatOps F) (env : Env F)
    (skus tiers local_ : List Row) (known : List proposalResponse)
    (hs : env.valuesGet skuRange = .ok skus) (ht : env.valuesGet tiersRange = .ok tiers)
    (hl : env.valuesGet proposalsRange = .ok local_) (hk : env.getProposals = .ok known) :
    sendOutgoingProposals fl env =
      if (local_.length : Int) > (known.length : Int) then
        sendNewProposals fl env tiers skus (local_.drop known.length) 0
      else ([], .ret (0, none)) := by
  simp [sendOutgoingProposals, hs, ht, hl, hk]

/-- C7, as amended: for an id that `strconv.Atoi` reads as the `int` `p`, with
`p + 1` still an `int`, `markProposalSent` issues one write and nothing else:
the single value `"Yes"` to the range `Proposals!E(p+1):E(p+1)`, which covers
exactly the cell of column E (index 4) in row `p + 1` of the `Proposals`
sheet, and it returns `nil` when the write is accepted; when `p = i + 1` that
cell is the one holding cell 4, the sent flag, of the row at index `i` of the
read `Proposals!A2:Z`.  For an id that `Atoi` rejects, be it no integer or an
integer outside `int`, it returns the error and issues nothing. -/
theorem markProposalSent_marks_row {F : Type} (env : Env F) (proposalID : String) :
    (∀ p : Int, Atoi proposalID = (p, none) → p < maxInt →
      (markProposalSent env proposalID).1 =
          [.update (sentFlagRange (p + 1)) [[.str "Yes"]]] ∧
        (env.valuesUpdate (sentFlagRange (p + 1)) [[.str "Yes"]] = none →
          (markProposalSent env proposalID).2 = .ret none) ∧
        (sentFlagRange (p + 1)).sheet = "Proposals" ∧
        (∀ (row : Int) (col : Nat),
          (sentFlagRange (p + 1)).covers row col = true ↔ (row = p + 1 ∧ col = 4)) ∧
        (∀ i : Nat, p = (i : Int) + 1 →
          (∀ (row : Int) (col : Nat), (sentFlagRange (p + 1)).covers row col = true ↔
            (row, col) = proposalsRange.position i 4) ∧
          ∀ (st : Store) (submitted : Row) (flag : Cell),
            (st.values proposalsRange)[i]? = some submitted → submitted[4]? = some flag →
            st.cell "Proposals" (proposalsRange.position i 4) = some flag.sprint)) ∧
    (∀ (v : Int) (e : GoErr), Atoi proposalID = (v, some e) →
      markProposalSent env proposalID = ([], .ret (some e))) := by
  refine ⟨?_, fun v e h => markProposalSent_unparsed env proposalID v e h⟩
  intro p hp hmax
  have hcov : ∀ (row : Int) (col : Nat),
      (sentFlagRange (p + 1)).covers row col = true ↔ (row = p + 1 ∧ col = 4) := by
    intro row col
    simp only [A1Range.covers, sentFlagRange, Bool.and_eq_true, decide_eq_true_eq]
    omega
  have hlow : minInt ≤ p := (Atoi_range proposalID p hp).1
  have hwrap : wrapInt (p + 1) = p + 1 := by
    unfold wrapInt
    unfold maxInt at hmax
    unfold minInt at hlow
    omega
  refine ⟨?_, ?_, rfl, hcov, ?_⟩
  · cases hu : env.valuesUpdate (sentFlagRange (wrapInt (p + 1))) [[.str "Yes"]] with
    | none => rw [markProposalSent_written env proposalID p hp hu, hwrap]
    | some e => rw [markProposalSent_rejected env proposalID p e hp hu, hwrap]
  · intro hu
    rw [markProposalSent_written env proposalID p hp (by rw [hwrap]; exact hu)]
  · intro i hi
    refine ⟨?_, ?_⟩
    · intro row col
      rw [hcov row col]
      simp only [A1Range.position, proposalsRange, Prod.mk.injEq]
      omega
    · intro st submitted flag h1 h2
      obtain ⟨t, ht, hcell⟩ := Store.values_position st proposalsRange 25 (by decide) rfl
        i 4 submitted flag h1 h2
      rw [ht]
      exact hcell

/-- C7, as stated, fails outside `int`: the id `9223372036854775808` is the
decimal text of the integer `2^63`, yet `strconv.Atoi` rejects it and nothing
is written; and for the id `9223372036854775807`, the largest `int`,
`proposalIDInt + 1` wraps around and the row written is `-2^63`, not
`p + 1`. -/
theorem markProposalSent_outside_int :
    Itoa (2 ^ 63) = "9223372036854775808" ∧
    markProposalSent ((sampleStore []).env [] sampleDetail [] statusOk : Env String)
        "9223372036854775808" =
      ([], .ret (some (.numError "Atoi" "9223372036854775808" true))) ∧
    Itoa maxInt = "9223372036854775807" ∧
    markProposalSent ((sampleStore []).env [] sampleDetail [] statusOk : Env String)
        "9223372036854775807" =
      ([.update (sentFlagRange minInt) [[.str "Yes"]]], .ret none) ∧
    minInt ≠ maxInt + 1 := by
  decide

/-! ## The entry points on a failed reconciliation -/

theorem UpdateIncoming_exits_on_error {F : Type} (fl : FloatOps F) (env : Env F)
    (tr : List (Effect F)) (a b : Int) (e : GoErr)
    (h0 : env.getSheetsService = none)
    (h : updateIncommingRFPs fl env = (tr, .ret (a, b, some e))) :
    UpdateIncoming fl env = (tr, .exit) := by
  simp [UpdateIncoming, requireSheetsService, h0, h, M.bind, logFatalf]

theorem SendProposals_exits_on_error {F : Type} (fl : FloatOps F) (env : Env F)
    (tr : List (Effect F)) (a : Int) (e : GoErr)
    (h0 : env.getSheetsService = none)
    (h : sendOutgoingProposals fl env = (tr, .ret (a, some e))) :
    SendProposals fl env = (tr, .exit) := by
  simp [SendProposals, requireSheetsService, h0, h, M.bind, logFatalf]

theorem UpdateAll_exits_on_inbound_error {F : Type} (fl : FloatOps F) (env : Env F)
    (tr : List (Effect F)) (a b : Int) (e : GoErr)
    (h0 : env.getSheetsService = none)
    (h : updateIncommingRFPs fl env = (tr, .ret (a, b, some e))) :
    UpdateAll fl env = (tr, .exit) := by
  simp [UpdateAll, requireSheetsService, h0, h, M.bind, logFatalf]

theorem UpdateAll_exits_on_outbound_error {F : Type} (fl : FloatOps F) (env : Env F)
    (tr tr2 : List (Effect F)) (a b c : Int) (e : GoErr)
    (h0 : env.getSheetsService = none)
    (h : updateIncommingRFPs fl env = (tr, .ret (a, b, none)))
    (h2 : sendOutgoingProposals fl env = (tr2, .ret (c, some e))) :
    UpdateAll fl env = (tr ++ tr2, .exit) := by
  simp [UpdateAll, requireSheetsService, h0, h, h2, M.bind, logFatalf]

/-! ## Where the code departs from the claims -/

set_option maxRecDepth 100000 in
/-- C1: the `RFPS` sheet holds the two RFPs `A` and `B` and the catalog
service lists `A, B, C`, every call succeeding.  The read of the single cell
`RFPS!A2` returns one row, so the code takes the suffix after the first RFP:
it appends the rows of `B`, which the sheet already holds, and then those of
`C`, and not the rows of `C` alone. -/
theorem updateIncommingRFPs_reappends_recorded_rfp :
    (sampleStore []).rfpRows.length = 2 ∧
    ((sampleStore []).values rfpsRange).length = 1 ∧
    updateIncommingRFPs sampleFloat
        ((sampleStore []).env [sampleRfp "A", sampleRfp "B", sampleRfp "C"] sampleDetail []
          statusOk) =
      (rfpAppends sampleFloat "B" (sampleDetail "B") ++
          rfpAppends sampleFloat "C" (sampleDetail "C"), .ret (3, 2, none)) ∧
    rfpAppends sampleFloat "B" (sampleDetail "B") ++ rfpAppends sampleFloat "C" (sampleDetail "C")
      ≠ rfpAppends sampleFloat "C" (sampleDetail "C") := by
  decide

set_option maxRecDepth 100000 in
/-- C2: the `RFPS` sheet holds the two RFPs `A` and `B` and the catalog
service lists the same two, every call succeeding.  The counts are equal,
yet the code appends the rows of `B` again and returns `(2, 1)` instead of
`(0, 0)`. -/
theorem updateIncommingRFPs_equal_counts_not_noop :
    (sampleStore []).rfpRows.length = 2 ∧
    [sampleRfp "A", sampleRfp "B"].length = 2 ∧
    updateIncommingRFPs sampleFloat
        ((sampleStore []).env [sampleRfp "A", sampleRfp "B"] sampleDetail [] statusOk) =
      (rfpAppends sampleFloat "B" (sampleDetail "B"), .ret (2, 1, none)) := by
  decide

set_option maxRecDepth 100000 in
/-- C4: one unsent local proposal, and a catalog service that answers the
submission with status 500.  `sendProposal` returns the error, but
`sendOutgoingProposals` drops it: the row is marked `"Yes"`, counted, and the
call returns `(1, nil)`. -/
theorem sendOutgoingProposals_ignores_rejection :
    sendProposal ((sampleStore [sampleProposalCells "1" "T1" "No"]).env [] sampleDetail []
        statusRejected) (samplePayload "1") =
      ([.post (samplePayload "1")],
        .ret (some (.errorf
          "Posting proposal returned status code 500 Internal Server Error"))) ∧
    sendOutgoingProposals sampleFloat
        ((sampleStore [sampleProposalCells "1" "T1" "No"]).env [] sampleDetail []
          statusRejected) =
      ([.post (samplePayload "1"), .update (sentFlagRange 2) [[.str "Yes"]]],
        .ret (1, none)) := by
  decide

set_option maxRecDepth 100000 in
/-- C8: the catalog service cannot be reached, so both reconcilers return an
error; likewise a proposal row with a dangling tier id makes the outbound
reconciler return an error.  Each entry point then ends the process in
`log.Fatalf`: it renders nothing, the failure object included. -/
theorem entry_points_exit_on_failure :
    updateIncommingRFPs sampleFloat (unreachableCatalog (sampleStore [])) =
      ([], .ret (0, 0, some (.io "dial tcp: connection refused"))) ∧
    sendOutgoingProposals sampleFloat (unreachableCatalog (sampleStore [])) =
      ([], .ret (0, some (.io "dial tcp: connection refused"))) ∧
    UpdateIncoming sampleFloat (unreachableCatalog (sampleStore [])) = ([], .exit) ∧
    SendProposals sampleFloat (unreachableCatalog (sampleStore [])) = ([], .exit) ∧
    UpdateAll sampleFloat (unreachableCatalog (sampleStore [])) = ([], .exit) ∧
    sendOutgoingProposals sampleFloat
        ((sampleStore [sampleProposalCells "1" "T9" "No"]).env [] sampleDetail [] statusOk) =
      ([], .ret (0, some (.errorf "Could not find price scale with id T9"))) ∧
    SendProposals sampleFloat
        ((sampleStore [sampleProposalCells "1" "T9" "No"]).env [] sampleDetail [] statusOk) =
      ([], .exit) := by
  decide

/-! ## Worked examples -/

theorem Store.env_valuesGet {F : Type} (st : Store) (rfps : List baselineRFP)
    (detail : String → rfpResponse F) (proposals : List proposalResponse)
    (answer : Response) (r : A1Range) (rows : List Row) (h : st.values r = rows) :
    (st.env rfps detail proposals answer).valuesGet r = .ok rows := by
  rw [← h]
  rfl

/-- The read of `Proposals!A2:Z` on the sample spreadsheet with five proposal
rows. -/
theorem fiveProposals_read :
    (sampleStore fiveProposals).values proposalsRange =
      [sampleProposalRow "1" "T1" "No", sampleProposalRow "2" "T1" "Yes",
        sampleProposalRow "3" "T1" "No", sampleProposalRow "4" "T1" "No",
        sampleProposalRow "5" "T1" "No"] := by
  decide

/-- The join example of the specification: tier `T1` of SKU `S1`, the SKU
`S1` named `Widget`. -/
theorem createProposal_sample :
    createProposal sampleFloat (sampleProposalRow "4" "T1" "No") sampleTiers sampleSkus =
      .ret (some (samplePayload "4"), none) := by
  decide

/-- The join example through C5: the payload of a row referring to `T1` has one
tier, built from the `T1` row and the `Widget` SKU row, also with further
rows below. -/
theorem createProposal_joins_first_match_example :
    lookupSafe sampleTiers sampleSkus "T1" = true ∧
    ∃ tiersOut : List (baselinePriceScale String),
      (∀ lowerTiers lowerSkus : List Row,
        createProposal sampleFloat (sampleProposalRow "4" "T1" "No")
            (sampleTiers ++ lowerTiers) (sampleSkus ++ lowerSkus) =
          .ret (some ⟨"4", "Buyer", "rfp-1", tiersOut⟩, none)) ∧
      tiersOut.length = 1 ∧ tiersOut[0]? = some sampleTier := by
  have hsplit : stringsSplitComma (Cell.str "T1").sprint = ["T1"] := by decide
  obtain ⟨tiersOut, hrun, hlen, hj⟩ := (createProposal_joins_first_match sampleFloat
    (.str "4") (.str "Buyer") (.str "rfp-1") (.str "T1") [.str "No"] sampleTiers sampleSkus
    (by
      intro id hid
      rw [hsplit] at hid
      have hid2 : id = "T1" := by simpa using hid
      subst hid2
      exact ⟨[.str "T1", .str "S1", .str "1", .str "10", .str "kg", .str "1.5", .str "EUR",
        .str "buyer-7"], [.str "S1", .str "Widget"], by decide, by decide, by decide,
        by decide⟩)).1
  refine ⟨by decide, tiersOut, hrun, by rw [hlen, hsplit]; rfl, ?_⟩
  obtain ⟨trow, srow, ht, hs, hout⟩ := hj 0 "T1" (by rw [hsplit]; rfl)
  have ht2 : trow = [.str "T1", .str "S1", .str "1", .str "10", .str "kg", .str "1.5",
      .str "EUR", .str "buyer-7"] := by
    have : sampleTiers.find? (firstColIs "T1") = some [.str "T1", .str "S1", .str "1",
        .str "10", .str "kg", .str "1.5", .str "EUR", .str "buyer-7"] := by decide
    rw [this] at ht
    exact (Option.some.inj ht).symm
  subst ht2
  have hs2 : srow = [.str "S1", .str "Widget"] := by
    have : sampleSkus.find? (firstColIs (cellText [.str "T1", .str "S1", .str "1",
        .str "10", .str "kg", .str "1.5", .str "EUR", .str "buyer-7"] 1)) =
        some [.str "S1", .str "Widget"] := by decide
    rw [this] at hs
    exact (Option.some.inj hs).symm
  subst hs2
  rw [hout]
  decide

/-- The id `3` marks cell E4, which holds the flag of the row at index 2 of the
read, the row with id `3`; the id `abc` is refused without a write. -/
theorem markProposalSent_marks_row_example :
    markProposalSent ((sampleStore fiveProposals).env [] sampleDetail [] statusOk :
        Env String) "3" =
      ([.update (sentFlagRange 4) [[.str "Yes"]]], .ret none) ∧
    (sentFlagRange 4).covers 4 4 = true ∧
    (sampleStore fiveProposals).cell "Proposals" (proposalsRange.position 2 4) = some "No" ∧
    markProposalSent ((sampleStore fiveProposals).env [] sampleDetail [] statusOk :
        Env String) "abc" =
      ([], .ret (some (.numError "Atoi" "abc" false))) := by
  have h := markProposalSent_marks_row
    ((sampleStore fiveProposals).env [] sampleDetail [] statusOk : Env String) "3"
  have h3 := h.1 3 (by decide) (by decide)
  have habc := markProposalSent_marks_row
    ((sampleStore fiveProposals).env [] sampleDetail [] statusOk : Env String) "abc"
  exact ⟨Prod.ext h3.1 (h3.2.1 rfl), (h3.2.2.2.1 4 4).mpr ⟨rfl, rfl⟩,
    (h3.2.2.2.2 2 rfl).2 (sampleStore fiveProposals) (sampleProposalRow "3" "T1" "No")
      (.str "No") (by decide) (by decide),
    habc.2 0 _ (by decide)⟩

/-- A tier row whose quantity-from cell is `abc`, below a ragged row of two
cells: the proposal referring to `T1,T2` is refused with the error of
`strconv.Atoi`. -/
theorem createProposal_malformed_numeric_example :
    ∃ e, createProposal sampleFloat (sampleProposalRow "1" "T1,T2" "No")
      [[.str "note", .str "ragged"],
        [.str "T1", .str "S1", .str "1", .str "10", .str "kg", .str "1.5", .str "EUR",
          .str "buyer-7"],
        [.str "T2", .str "S1", .str "abc", .str "10", .str "kg", .str "1.5", .str "EUR",
          .str "buyer-7"]]
      sampleSkus = .ret (none, some e) :=
  createProposal_malformed_numeric sampleFloat (.str "1") (.str "Buyer") (.str "rfp-1")
    (.str "T1,T2") [.str "No"] _ sampleSkus ["T1"] [] "T2"
    [.str "T2", .str "S1", .str "abc", .str "10", .str "kg", .str "1.5", .str "EUR",
      .str "buyer-7"]
    [.str "S1", .str "Widget"] (by decide) (by decide) (by decide) (by decide) (by decide)
    (by decide)

/-- The sample ranges have the widths the code relies on: the candidate test
and `createProposal` return. -/
theorem createProposal_index_safety_example :
    (∃ c, index (sampleProposalRow "1" "T1,T9" "No") 4 = .ret c) ∧
    ((∃ b, createProposal sampleFloat (sampleProposalRow "1" "T1,T9" "No") sampleTiers
        sampleSkus = .ret (some b, none)) ∨
      (∃ e, createProposal sampleFloat (sampleProposalRow "1" "T1,T9" "No") sampleTiers
        sampleSkus = .ret (none, some e))) :=
  (createProposal_index_safety sampleFloat).1 (sampleProposalRow "1" "T1,T9" "No")
    sampleTiers sampleSkus (by decide) (by decide)

/-! ## Side conditions of the statements above, on examples -/

set_option maxRecDepth 100000 in
/-- The outbound loop stops at the first row that fails: the candidate after a
row with a dangling reference is not submitted in that run. -/
theorem sendOutgoingProposals_stops_at_first_failure :
    sendOutgoingProposals sampleFloat
        ((sampleStore [sampleProposalCells "1" "T9" "No", sampleProposalCells "2" "T1" "No"]).env
          [] sampleDetail [] statusOk) =
      ([], .ret (0, some (.errorf "Could not find price scale with id T9"))) := by
  decide

end Sheets
